import Mathlib

/-!
# Verification of the S2I build orchestrator (`pkg/build/builder/sti.go`)

This file is a shallow embedding of the build orchestration controller in
`pkg/build/builder/sti.go` (the `S2IBuilder.Build` method and its pure
helpers), together with proofs of the behavioural properties claimed for it.

External collaborators (the container engine, the s2i assembly strategy
engine, `exec`-ed processes, the HTTP client, the git metadata reader, the
Go standard library primitives used opaquely) are modelled by an `Oracle`
record supplying the result of each external call; the orchestration logic
itself — sequencing, fallback, status mutation, early returns — is
translated statement by statement from the Go source.  Go `panic`s caused
by nil-pointer dereferences are modelled explicitly by a `Halt.panicked`
outcome.
-/

/-- Errors are modelled as their message strings. -/
abbrev Err := String

/- ### Go string primitives, modelled on `List Char` -/

/-- Go `strings.Contains` on character lists: does `s` contain `sub`? -/
def containsSub (sub : List Char) : List Char → Bool
  | [] => sub.isEmpty
  | c :: rest => if sub.isPrefixOf (c :: rest) then true else containsSub sub rest

/-- Go `strings.Contains`. -/
def stringContains (s sub : String) : Bool :=
  containsSub sub.data s.data

/-- Characters before the first occurrence of `c` (used to model
`strings.SplitN(s, ":", 2)[0]`). -/
def takeUntil (c : Char) : List Char → List Char
  | [] => []
  | x :: rest => if x = c then [] else x :: takeUntil c rest

/-- Whitespace test used by Go `strings.TrimSpace` (ASCII subset). -/
def isSpaceChar (c : Char) : Bool :=
  c = ' ' ∨ c = '\t' ∨ c = '\n' ∨ c = '\r'

/-- Go `strings.TrimSpace`. -/
def trimSpace (s : String) : String :=
  ⟨((s.data.dropWhile isSpaceChar).reverse.dropWhile isSpaceChar).reverse⟩

/-- Go `strings.ReplaceAll` on character lists: replace every non-overlapping
occurrence of `pat` (leftmost first) by `rep`.  Structural recursion on a
fuel argument (initialised to the list length, which bounds the number of
steps) so that the definition reduces inside the kernel. -/
def replaceAllAux (pat rep : List Char) : Nat → List Char → List Char
  | 0, s => s
  | _ + 1, [] => []
  | fuel + 1, c :: rest =>
    if pat ≠ [] ∧ pat.isPrefixOf (c :: rest) then
      rep ++ replaceAllAux pat rep fuel ((c :: rest).drop pat.length)
    else
      c :: replaceAllAux pat rep fuel rest

/-- Go `strings.ReplaceAll`. -/
def replaceAll (s pat rep : String) : String :=
  ⟨replaceAllAux pat.data rep.data s.data.length s.data⟩

/- ### Go `map[string]string`, modelled as an association list without
duplicate keys (`mapSet` overwrites in place, `mapGet` looks up). -/

/-- Map lookup. -/
def mapGet (m : List (String × String)) (k : String) : Option String :=
  match m with
  | [] => none
  | (k2, v) :: rest => if k2 = k then some v else mapGet rest k

/-- Map lookup with Go's zero-value default `""` for absent keys. -/
def mapGetD (m : List (String × String)) (k : String) : String :=
  (mapGet m k).getD ""

/-- Map assignment `m[k] = v`: overwrite the existing entry in place, or
append a new one. -/
def mapSet (m : List (String × String)) (k v : String) : List (String × String) :=
  if (mapGet m k).isSome then
    m.map (fun p => if p.1 = k then (k, v) else p)
  else
    m ++ [(k, v)]

/- ### Data model: the build object (`buildapiv1.Build`, fields used by
`S2IBuilder.Build`) -/

/-- `corev1.ObjectReference`, reduced to the `Name` field used here. -/
structure ObjectRef where
  name : String
deriving DecidableEq, Inhabited

/-- `buildapiv1.ImageLabel` (an entry of `Spec.Output.ImageLabels`). -/
structure ImageLabel where
  name : String
  value : String
deriving DecidableEq, Inhabited

/-- `buildapiv1.GitBuildSource`, reduced to the `Ref` field used here. -/
structure GitBuildSource where
  ref : String
deriving DecidableEq, Inhabited

/-- A strategy environment variable (`corev1.EnvVar`). -/
structure EnvVar where
  name : String
  value : String
deriving DecidableEq, Inhabited

/-- `buildapiv1.SourceBuildStrategy` (`Spec.Strategy.SourceStrategy`),
reduced to the fields read or written by `S2IBuilder.Build`. -/
structure SourceStrategy where
  forcePull : Bool
  incremental : Option Bool
  scripts : String
  /-- `From.Name`, the builder image reference. -/
  fromName : String
  env : List EnvVar
deriving DecidableEq, Inhabited

/-- `buildapiv1.BuildSource` fields used here (secrets/config-map volume
shaping is not claim-relevant and is left to the external assembly config). -/
structure BuildSource where
  contextDir : String
  git : Option GitBuildSource
deriving DecidableEq, Inhabited

/-- `buildapiv1.BuildOutput`.  (`toRef` models the Go field `To`; `to` is a
reserved word in Lean.) -/
structure BuildOutput where
  toRef : Option ObjectRef
  imageLabels : List ImageLabel
deriving DecidableEq, Inhabited

/-- `buildapiv1.BuildSpec` fields used by the orchestrator. -/
structure BuildSpec where
  sourceStrategy : Option SourceStrategy
  output : BuildOutput
  source : BuildSource
deriving DecidableEq, Inhabited

/-- `buildapiv1.BuildPhase`. -/
inductive BuildPhase
  | new
  | pending
  | running
  | complete
  | failed
  | error
  | cancelled
deriving DecidableEq, Inhabited

/-- One stage/step timing record (timestamps are not modelled; the claims
concern which records are appended and in what order). -/
structure StageStep where
  stage : String
  step : String
deriving DecidableEq, Inhabited

/-- `buildapiv1.BuildStatusOutputTo`. -/
structure BuildStatusOutputTo where
  imageDigest : String
deriving DecidableEq, Inhabited

/-- `buildapiv1.BuildStatus` fields used by the orchestrator. -/
structure BuildStatus where
  phase : BuildPhase
  reason : String
  message : String
  outputDockerImageReference : String
  stages : List StageStep
  /-- `Status.Output.To`. -/
  outputTo : Option BuildStatusOutputTo
deriving DecidableEq, Inhabited

/-- `buildapiv1.Build`, reduced to the fields used by `S2IBuilder.Build`. -/
structure Build where
  name : String
  namespaceName : String
  spec : BuildSpec
  status : BuildStatus
deriving DecidableEq, Inhabited

/- ### s2i API types used by the orchestrator -/

/-- `s2iapi.ProxyConfig`; parsed URLs are modelled by their source strings. -/
structure ProxyConfig where
  httpProxy : Option String
  httpsProxy : Option String
deriving DecidableEq, Inhabited

/-- `s2iapi.Config`, reduced to the fields the orchestrator computes or
mutates (external pass-through fields with constant values are omitted). -/
structure S2IConfig where
  scriptsURL : String
  builderImage : String
  incremental : Bool
  incrementalFromTag : String
  environment : List EnvVar
  labels : List (String × String)
  contextDir : String
  asDockerfile : String
  scriptDownloadProxyConfig : Option ProxyConfig
  assembleUser : String := ""
  destination : String := ""
  imageScriptsURL : String := ""
deriving DecidableEq, Inhabited

/-- An inspected image (`dockerclient.Image`): the fields
`ContainerConfig.User` and `ContainerConfig.Labels` used here. -/
structure DockerImage where
  user : String
  labels : List (String × String)
deriving DecidableEq, Inhabited

/- ### Constants from the external label/status vocabularies -/

/-- `builderutil.DefaultDockerLabelNamespace`. -/
def defaultDockerLabelNamespace : String := "io.openshift.build."

/-- `s2iconstants.AssembleUserLabel`. -/
def assembleUserLabel : String := "io.openshift.s2i.assemble-user"

/-- `s2iconstants.DestinationLabel`. -/
def destinationLabel : String := "io.openshift.s2i.destination"

/-- `s2iconstants.ScriptsURLLabel`. -/
def scriptsURLLabel : String := "io.openshift.s2i.scripts-url"

/-- `buildapiv1.StatusReasonGenericBuildFailed`. -/
def statusReasonGenericBuildFailed : String := "GenericBuildFailed"

/-- `builderutil.StatusMessageGenericBuildFailed` (external constant,
value as documented). -/
def statusMessageGenericBuildFailed : String :=
  "Generic Build failure - check logs for details."

/-- `buildapiv1.StatusReasonPushImageToRegistryFailed`. -/
def statusReasonPushImageToRegistryFailed : String := "PushImageToRegistryFailed"

/-- `builderutil.StatusMessagePushImageToRegistryFailed` (external constant,
value as documented). -/
def statusMessagePushImageToRegistryFailed : String :=
  "Failed to push the image to the registry."

/- ### Pure helper functions translated from `sti.go` -/

/-- `extractUser` (sti.go lines 687-693): keep only the user component of a
`user:group` spec, whitespace-trimmed. -/
def extractUser (userSpec : String) : String :=
  if stringContains userSpec ":" then
    trimSpace ⟨takeUntil ':' userSpec.data⟩
  else
    trimSpace userSpec

/-- `getAssembleUser` (sti.go lines 673-685), on an already-inspected image:
default to the image's configured user, override with the assemble-user
label when present, then `extractUser` the result.  (The `InspectImage`
call and its error path are handled at the call site in the `Build`
pipeline.) -/
def getAssembleUser (image : DockerImage) : String :=
  let assembleUser := image.user
  let assembleUser :=
    match mapGet image.labels assembleUserLabel with
    | some labelAssembleUser => labelAssembleUser
    | none => assembleUser
  extractUser assembleUser

/-- `isImagePresent` (sti.go lines 659-663): true only if inspection
succeeds and returns a non-null image record. -/
def isImagePresent (inspectImage : String → Except Err (Option DockerImage))
    (imageTag : String) : Bool :=
  match inspectImage imageTag with
  | .ok (some _) => true
  | _ => false

/-- `s2iBuildLabels` (sti.go lines 582-605).  The output of the external
`s2iutil.GenerateLabelsFromSourceInfo` (fed with the source info whose
context dir was overridden) is taken as the `generatedLabels` argument;
the commit-ref override and the caller-supplied image-label overrides are
then applied exactly as in the source. -/
def s2iBuildLabels (generatedLabels : List (String × String)) (build : Build) :
    List (String × String) :=
  let labels := generatedLabels
  let labels :=
    match build.spec.source.git with
    | some g =>
      if g.ref ≠ "" then
        mapSet labels (defaultDockerLabelNamespace ++ "build.commit.ref") g.ref
      else labels
    | none => labels
  build.spec.output.imageLabels.foldl (fun labels lbl => mapSet labels lbl.name lbl.value) labels

/-- One iteration of the scanning loop of `scriptProxyConfig` (the `switch`
in sti.go lines 615-620), acting on the `(httpProxy, httpsProxy)`
accumulator. -/
def proxyScanStep (acc : String × String) (env : EnvVar) : String × String :=
  if env.name = "HTTP_PROXY" ∨ env.name = "http_proxy" then (env.value, acc.2)
  else if env.name = "HTTPS_PROXY" ∨ env.name = "https_proxy" then (acc.1, env.value)
  else acc

/-- The scanning loop of `scriptProxyConfig` (sti.go lines 612-621):
fold over the strategy environment, last assignment wins. -/
def resolveProxyEnv (envs : List EnvVar) : String × String :=
  envs.foldl proxyScanStep ("", "")

/-- `scriptProxyConfig` (sti.go lines 611-641).  `ParseProxyURL` lives in a
sibling file of the repository and is passed in as a function; parsed URLs
are modelled by strings. -/
def scriptProxyConfig (parseProxyURL : String → Except Err String) (build : Build) :
    Except Err (Option ProxyConfig) :=
  let env := (build.spec.sourceStrategy.map SourceStrategy.env).getD []
  let res := resolveProxyEnv env
  let httpProxy := res.1
  let httpsProxy := res.2
  if httpProxy = "" ∧ httpsProxy = "" then
    Except.ok none
  else if httpProxy ≠ "" then
    match parseProxyURL httpProxy with
    | .error e => .error e
    | .ok proxyURL =>
      if httpsProxy ≠ "" then
        match parseProxyURL httpsProxy with
        | .error e => .error e
        | .ok proxyURL2 => .ok (some { httpProxy := some proxyURL, httpsProxy := some proxyURL2 })
      else
        .ok (some { httpProxy := some proxyURL, httpsProxy := none })
  else
    match parseProxyURL httpsProxy with
    | .error e => .error e
    | .ok proxyURL2 => .ok (some { httpProxy := none, httpsProxy := some proxyURL2 })

/-- Modelled from the spec: strip a *trailing* `":latest"` suffix only
(this is the spec's description of the attestation payload name; the
source uses `strings.ReplaceAll`, and the two are compared in the C6
theorems). -/
def stripTrailingLatest (s : String) : String :=
  if ":latest".data.isSuffixOf s.data then
    ⟨s.data.take (s.data.length - ":latest".data.length)⟩
  else s

/- ### The run: oracle, state, events, outcomes -/

/-- The attestation-registration JSON payload (sti.go line 498).  The
`kernelCmdLine` field holds the command line before the external base64
encoding step. -/
structure RegPayload where
  sha : String
  name : String
  kernelCmdLine : String
deriving DecidableEq, Inhabited

/-- Observable side effects of a run, in chronological order.  `statusUpdate`
records a `HandleBuildStatusUpdate` call (the status-sink flush) with the
status it flushed; `builderCreated` records the config handed to the s2i
builder factory; `tagged`/`pushed` record container-engine tag/push calls;
`registered` records the attestation-registration POST payload;
`logRegistrationError` records the log line for a failed registration. -/
inductive Event
  | statusUpdate (status : BuildStatus)
  | builderCreated (config : S2IConfig)
  | tagged (src dst : String)
  | pushed (tag : String)
  | registered (payload : RegPayload)
  | logRegistrationError (e : Err)
deriving DecidableEq, Inhabited

/-- How a run stops early: a returned error, or a Go runtime panic
(nil-pointer dereference). -/
inductive Halt
  | fail (e : Err)
  | panicked (msg : String)
deriving DecidableEq, Inhabited

/-- The mutable state threaded through `S2IBuilder.Build`: the build object
(`s.build`), the s2i config, the local variables of the method, the timing
context (`stages`), and the event trace. -/
structure St where
  build : Build
  config : S2IConfig
  push : Bool
  pushTag : String
  buildTag : String
  cwEnv : String
  cwWorkdir : String
  cwPassword : String
  stages : List StageStep
  events : List Event
deriving DecidableEq, Inhabited

/-- Result of a (partial) run: either control flowed through, or the run
halted with an error return or a panic.  Both carry the state at that
point. -/
inductive StepResult
  | cont (s : St)
  | halt (h : Halt) (s : St)
deriving DecidableEq, Inhabited

/-- The state carried by a result. -/
def StepResult.state : StepResult → St
  | .cont s => s
  | .halt _ s => s

/-- The halt carried by a result, if any (`none` = the run flowed through). -/
def StepResult.outcome : StepResult → Option Halt
  | .cont _ => none
  | .halt h _ => some h

/-- Sequencing with early exit: a halt skips the rest of the method. -/
def seqStep (r : StepResult) (f : St → StepResult) : StepResult :=
  match r with
  | .cont s => f s
  | .halt h s => .halt h s

/-- `s2iapi.Result` / its `BuildInfo` as used here: the stage timing entries
merged into the timing context, and the structured failure reason pair. -/
structure AssemblyResult where
  stages : List StageStep
  failureReason : String
  failureMessage : String
deriving DecidableEq, Inhabited

/-- Results of every external call `S2IBuilder.Build` makes, plus the
repository code living outside this file, supplied as an environment.
Pull/push fields carry the overall result of the `retryImageAction`-wrapped
operation. -/
structure Oracle where
  /-- `readSourceInfo()` (repository code in a sibling file): the claims use
  only its error result, so the source-info payload is not modelled. -/
  readSourceInfoRes : Except Err Unit
  /-- Modelled from the spec: `randomBuildTag(namespace, name)` (repository
  code in a sibling file) derives the transient build tag from
  namespace + name + a random suffix; the oracle supplies its value. -/
  buildTag : String
  /-- `ParseProxyURL` (repository code in a sibling file); parsed URLs are
  modelled by strings. -/
  parseProxyURL : String → Except Err String
  /-- Go standard library `filepath.Clean`, treated as an external primitive. -/
  filepathClean : String → String
  /-- `dockerClient.InspectImage`, per image tag: error, or nil image, or an
  image record. -/
  inspectImage : String → Except Err (Option DockerImage)
  /-- Result of the retried pull of the builder image (sti.go line 237). -/
  pullBuilderRes : Except Err Unit
  /-- Result of the retried pull of the incremental image (sti.go line 250). -/
  pullIncrementalRes : Except Err Unit
  /-- `buildEnvVars(build, sourceInfo)` output (metadata assembly via
  external `buildInfo` and `s2iapi.EnvironmentList`). -/
  environment : List EnvVar
  /-- `s2iutil.GenerateLabelsFromSourceInfo` output (external). -/
  generatedLabels : List (String × String)
  /-- `os.Getenv(builderutil.AllowedUIDs)`. -/
  allowedUIDs : String
  /-- `config.AllowedUIDs.Set` (external s2i parser): error result. -/
  parseAllowedUIDs : String → Except Err Unit
  /-- `s.validator.ValidateConfig`: the validation error list. -/
  validateConfig : S2IConfig → List Err
  /-- `s.builder.Builder(config, overrides)`: success, or an error together
  with the `buildInfo.FailureReason` reason/message pair. -/
  factory : S2IConfig → Except (Err × String × String) Unit
  /-- `builder.Build(config)`: the (possibly nil) result record and the
  (possibly nil) error, as in Go. -/
  assemblyBuild : S2IConfig → Option AssemblyResult × Option Err
  /-- `os.Stat(config.AsDockerfile)` existence check. -/
  dockerfileExists : Bool
  /-- The dockerfile read/parse/append-post-commit/rewrite block
  (sti.go lines 384-398): collapsed error result of its external calls. -/
  recipeStepRes : Except Err Unit
  /-- First `s.dockerClient.BuildImage(opts)` (sti.go line 401). -/
  engineBuild1Res : Except Err Unit
  /-- `python3 /usr/bin/extract_env.py` output (sti.go line 416). -/
  extractEnvRes : Except Err String
  /-- `buildah inspect` working-dir output (sti.go line 425). -/
  inspectWorkdirRes : Except Err String
  /-- `uuid.New().String()` (sti.go line 434). -/
  uuidString : String
  /-- `/usr/bin/cw-build` output (sti.go line 435). -/
  cwBuildRes : Except Err String
  /-- Second `s.dockerClient.BuildImage(opts)` (sti.go line 456). -/
  engineBuild2Res : Except Err Unit
  /-- `tagImage(s.dockerClient, buildTag, pushTag)` (sti.go line 466). -/
  tagImageRes : Except Err Unit
  /-- `dockercfg.NewHelper().GetDockerAuth(...)` presence flag. -/
  pushAuthPresent : Bool
  /-- `s.pushImage(pushTag, pushAuthConfig)`: the digest or the error. -/
  pushRes : Except Err String
  /-- `client.Do(req)` for the registration POST: `ok` means a non-nil
  response (of any HTTP status code, which the source never checks),
  `error` means a transport failure with a nil response, as in Go. -/
  httpDoRes : Except Err Unit

/- ### State helpers -/

/-- Append an event to the trace. -/
def addEvent (s : St) (e : Event) : St :=
  { s with events := s.events ++ [e] }

/-- `timing.RecordNewStep(ctx, stage, step, ...)`: append a timing record to
the run's timing context. -/
def recordStep (s : St) (stage step : String) : St :=
  { s with stages := s.stages ++ [⟨stage, step⟩] }

/-- Mutate `s.build.Status.{Phase, Reason, Message}`. -/
def setPhase (s : St) (phase : BuildPhase) (reason message : String) : St :=
  { s with build := { s.build with status :=
      { s.build.status with phase := phase, reason := reason, message := message } } }

/-- Modelled from the spec: `HandleBuildStatusUpdate(s.build, s.client, nil)`
(repository code in a sibling file) flushes the current build status to the
external status sink; modelled as recording a `statusUpdate` event carrying
the flushed status. -/
def handleBuildStatusUpdate (s : St) : St :=
  addEvent s (.statusUpdate s.build.status)

/-- The source strategy, which phases after `checkStrategy` read (the nil
check at the top of `Build` guarantees it is present). -/
def St.strat (s : St) : SourceStrategy :=
  s.build.spec.sourceStrategy.getD default

/-- The mutation `s.build.Spec.Strategy.SourceStrategy.ForcePull = v`
(sti.go line 262). -/
def setForcePull (b : Build) (v : Bool) : Build :=
  { b with spec := { b.spec with
      sourceStrategy := b.spec.sourceStrategy.map (fun st => { st with forcePull := v }) } }

/-- Modelled from the spec: `reportPushFailure` (repository code in a
sibling file) wraps the push error with credential-presence context. -/
def reportPushFailure (e : Err) (authPresent : Bool) : Err :=
  if authPresent then e ++ " (push secret provided)" else e ++ " (no push secret provided)"

/- ### The phases of `S2IBuilder.Build`, in source order -/

/-- sti.go lines 147-149: reject builds without a source strategy. -/
def checkStrategy (s : St) : StepResult :=
  match s.build.spec.sourceStrategy with
  | none => .halt (.fail "the source to image builder must be used with the source strategy") s
  | some _ => .cont s

/-- sti.go lines 151-158: when there is no output target (nil `Output.To` or
empty name), point the status output reference at the build's own name and
leave `push` false; otherwise set `push`. -/
def setupOutput (s : St) : St :=
  if s.build.spec.output.toRef = none ∨ (s.build.spec.output.toRef.getD default).name = "" then
    { s with build := { s.build with status :=
        { s.build.status with outputDockerImageReference := s.build.name } } }
  else
    { s with push := true }

/-- sti.go line 159: `pushTag := s.build.Status.OutputDockerImageReference`. -/
def setPushTag (s : St) : St :=
  { s with pushTag := s.build.status.outputDockerImageReference }

/-- sti.go lines 161-168: read the git source info; an error aborts the run
with a wrapped message and no status change. -/
def readSourceInfoPhase (o : Oracle) (s : St) : StepResult :=
  match o.readSourceInfoRes with
  | .error e => .halt (.fail ("error reading git source info: " ++ e)) s
  | .ok _ => .cont s

/-- sti.go lines 173-229: assign the build tag, compute the proxy
configuration (aborting on its error), compute the incremental flag and the
cleaned context dir, and build the `s2iapi.Config` literal. -/
def configPhase (o : Oracle) (s : St) : StepResult :=
  match scriptProxyConfig o.parseProxyURL s.build with
  | .error e => .halt (.fail e) s
  | .ok scriptDownloadProxyConfig =>
    let strat := s.strat
    let incremental := match strat.incremental with
      | some b => b
      | none => false
    let contextDir :=
      if s.build.spec.source.contextDir ≠ "" then
        let c := o.filepathClean s.build.spec.source.contextDir
        if c = "." ∨ c = "/" then "" else c
      else ""
    .cont { s with
      buildTag := o.buildTag,
      config := {
        scriptsURL := strat.scripts
        builderImage := strat.fromName
        incremental := incremental
        incrementalFromTag := s.pushTag
        environment := o.environment
        labels := s2iBuildLabels o.generatedLabels s.build
        contextDir := contextDir
        asDockerfile := "/tmp/dockercontext/Dockerfile"
        scriptDownloadProxyConfig := scriptDownloadProxyConfig } }

/-- sti.go lines 234-242: pull the builder image (recording the timing step)
when force-pull is set or the image is absent; a pull error aborts the run
with no status change. -/
def pullBuilderPhase (o : Oracle) (s : St) : StepResult :=
  if s.strat.forcePull ∨ ¬ isImagePresent o.inspectImage s.config.builderImage then
    let s := recordStep s "PullImages" "PullBaseImage"
    match o.pullBuilderRes with
    | .error e => .halt (.fail e) s
    | .ok _ => .cont s
  else .cont s

/-- sti.go lines 244-265: the incremental-image pull.  On pull failure the
build is downgraded to non-incremental (`config.Incremental = false`,
`config.IncrementalFromTag = ""`) and the run continues; on success the
request's `ForcePull` flag is cleared. -/
def incrementalPhase (o : Oracle) (s : St) : StepResult :=
  if s.config.incremental then
    if s.strat.forcePull ∨ ¬ isImagePresent o.inspectImage s.config.incrementalFromTag then
      let s := recordStep s "PullImages" "PullInputImage"
      match o.pullIncrementalRes with
      | .error _ =>
        .cont { s with config := { s.config with incremental := false, incrementalFromTag := "" } }
      | .ok _ => .cont { s with build := setForcePull s.build false }
    else .cont s
  else .cont s

/-- sti.go lines 267-274: resolve the assemble user from the builder image;
an inspect error aborts the run with no status change; a nil image record
is a Go nil-pointer dereference. -/
def assembleUserPhase (o : Oracle) (s : St) : StepResult :=
  match o.inspectImage s.config.builderImage with
  | .error e => .halt (.fail e) s
  | .ok none => .halt (.panicked "nil pointer dereference: image.ContainerConfig") s
  | .ok (some image) =>
    let assembleUser := getAssembleUser image
    if assembleUser ≠ "" then
      .cont { s with config := { s.config with assembleUser := assembleUser } }
    else .cont s

/-- sti.go lines 276-291: read the builder-image labels; apply the
destination label and (when no scripts URL was requested) the scripts-URL
label. -/
def labelsPhase (o : Oracle) (s : St) : StepResult :=
  match o.inspectImage s.config.builderImage with
  | .error e => .halt (.fail e) s
  | .ok none => .halt (.panicked "nil pointer dereference: image.ContainerConfig") s
  | .ok (some image) =>
    let labels := image.labels
    let destination := mapGetD labels destinationLabel
    let s := if destination ≠ "" then
        { s with config := { s.config with destination := destination } }
      else s
    if s.config.scriptsURL = "" then
      let scriptsURL := mapGetD labels scriptsURLLabel
      if scriptsURL ≠ "" then
        .cont { s with config := { s.config with imageScriptsURL := scriptsURL } }
      else .cont s
    else .cont s

/-- sti.go lines 293-300: parse the `ALLOWED_UIDS` environment variable when
set; a parse error aborts the run with no status change. -/
def allowedUIDsPhase (o : Oracle) (s : St) : StepResult :=
  if o.allowedUIDs ≠ "" then
    match o.parseAllowedUIDs o.allowedUIDs with
    | .error e => .halt (.fail e) s
    | .ok _ => .cont s
  else .cont s

/-- sti.go lines 302-309: validate the config; a non-empty error list aborts
the run with the concatenated messages and no status change. -/
def validatePhase (o : Oracle) (s : St) : StepResult :=
  match o.validateConfig s.config with
  | [] => .cont s
  | errs => .halt (.fail (String.join (errs.map (fun ve => ve ++ ", ")))) s

/-- sti.go lines 315-324: create the s2i builder; on error, set the failed
phase with the converted failure reason/message, flush the status, and
return the error. -/
def factoryPhase (o : Oracle) (s : St) : StepResult :=
  let s := addEvent s (.builderCreated s.config)
  match o.factory s.config with
  | .error (e, reason, message) =>
    let s := setPhase s .failed reason message
    let s := handleBuildStatusUpdate s
    .halt (.fail e) s
  | .ok _ => .cont s

/-- sti.go lines 328-350: run the assembly delegate; merge its stage timing
into the timing context (a nil result record would be dereferenced by that
loop: Go panic); on error, set the failed phase with the structured failure
reason/message, flush the status, and return the error. -/
def assemblyPhase (o : Oracle) (s : St) : StepResult :=
  match o.assemblyBuild s.config with
  | (none, _) => .halt (.panicked "nil pointer dereference: result.BuildInfo") s
  | (some result, err) =>
    let s := { s with stages := s.stages ++ result.stages }
    match err with
    | some e =>
      let s := setPhase s .failed result.failureReason result.failureMessage
      let s := handleBuildStatusUpdate s
      .halt (.fail e) s
    | none => .cont s

/-- sti.go lines 383-399: when the generated dockerfile exists, read it,
parse it, append the post-commit instructions and rewrite it; any error
aborts the run with no status change. -/
def recipePhase (o : Oracle) (s : St) : StepResult :=
  if o.dockerfileExists then
    match o.recipeStepRes with
    | .error e => .halt (.fail e) s
    | .ok _ => .cont s
  else .cont s

/-- sti.go lines 401-409: the container-engine build of the generated
context (recording the timing step); on error, set the failed phase with
the generic reason/message (no flush here; the deferred handler flushes)
and return the error. -/
def engineBuildPhase (o : Oracle) (s : St) : StepResult :=
  let res := o.engineBuild1Res
  let s := recordStep s "Build" "DockerBuild"
  match res with
  | .error e =>
    .halt (.fail e)
      (setPhase s .failed statusReasonGenericBuildFailed statusMessageGenericBuildFailed)
  | .ok _ => .cont s

/-- sti.go lines 493-515: the digest block.  With a non-empty digest and a
one-time cw password, compose the attestation payload (name =
`strings.ReplaceAll(pushTag, ":latest", "")`) and POST it; a transport
error is logged, after which the deferred `resp.Body.Close()` dereferences
the nil response (Go panic).  Otherwise record the digest into the build
status and flush it. -/
def digestPhase (o : Oracle) (digest : String) (s : St) : StepResult :=
  if digest ≠ "" then
    let registration : StepResult :=
      if s.cwPassword ≠ "" then
        let kernelCmdLine :=
          "KRUN_CFG=2:512 reboot=k panic=-1 panic_print=0 pci=off nomodules console=hvc0 rw no-kvmapf init=/bin/sh virtio_mmio.device=4K@0xd0000000:5 virtio_mmio.device=4K@0xd0001000:6 virtio_mmio.device=4K@0xd0002000:7 virtio_mmio.device=4K@0xd0003000:8 swiotlb=65536 KRUN_PASS="
            ++ s.cwPassword ++ " KRUN_INIT=/usr/libexec/s2i/run KRUN_WORKDIR=" ++ s.cwWorkdir
            ++ " " ++ s.cwEnv
        let payload : RegPayload :=
          { sha := digest
            name := replaceAll s.pushTag ":latest" ""
            kernelCmdLine := kernelCmdLine }
        let s := addEvent s (.registered payload)
        match o.httpDoRes with
        | .error e =>
          let s := addEvent s (.logRegistrationError e)
          .halt (.panicked "nil pointer dereference: resp.Body") s
        | .ok _ => .cont s
      else .cont s
    seqStep registration fun s =>
      let s := { s with build := { s.build with status :=
          { s.build.status with outputTo := some { imageDigest := digest } } } }
      .cont (handleBuildStatusUpdate s)
  else .cont s

/-- sti.go lines 411-463: the secure-repackaging branch, taken when the
build tag contains the `-cw` marker.  Each external step's failure aborts
the run with no status change (the second engine build additionally sleeps
before returning, which does not change the modelled state). -/
def cwPhase (o : Oracle) (s : St) : StepResult :=
  if stringContains s.buildTag "-cw" then
    match o.extractEnvRes with
    | .error e => .halt (.fail e) s
    | .ok stdout =>
    let s := { s with cwEnv := stdout }
    match o.inspectWorkdirRes with
    | .error e => .halt (.fail e) s
    | .ok stdout2 =>
    let s := { s with cwWorkdir := replaceAll stdout2 "\x27" "" }
    let s := { s with cwPassword := o.uuidString }
    match o.cwBuildRes with
    | .error e => .halt (.fail e) s
    | .ok _ =>
    match o.engineBuild2Res with
    | .error e => .halt (.fail e) s
    | .ok _ => .cont s
  else .cont s

/-- sti.go lines 465-517: the push branch.  Tag, resolve push credentials,
push with retry (recording the timing step); a push failure sets the failed
phase with the push reason/message, flushes, and returns the wrapped error;
on success the digest block runs. -/
def pushPhase (o : Oracle) (s : St) : StepResult :=
  if s.push then
    let s := addEvent s (.tagged s.buildTag s.pushTag)
    match o.tagImageRes with
    | .error e => .halt (.fail e) s
    | .ok _ =>
    let authPresent := o.pushAuthPresent
    let s := addEvent s (.pushed s.pushTag)
    let res := o.pushRes
    let s := recordStep s "PushImage" "PushImage"
    match res with
    | .error e =>
      let s := setPhase s .failed statusReasonPushImageToRegistryFailed
        statusMessagePushImageToRegistryFailed
      let s := handleBuildStatusUpdate s
      .halt (.fail (reportPushFailure e authPresent)) s
    | .ok digest => digestPhase o digest s
  else .cont s

/- ### The pipeline, segmented so that properties of a suffix of the run can
be stated and proved -/

/-- The run from the push branch on. -/
def fromPush (o : Oracle) (s : St) : StepResult := pushPhase o s

/-- The run from the secure-repackaging branch on. -/
def fromCw (o : Oracle) (s : St) : StepResult := seqStep (cwPhase o s) (fromPush o)

/-- The run from the container-engine build on. -/
def fromEngineBuild (o : Oracle) (s : St) : StepResult :=
  seqStep (engineBuildPhase o s) (fromCw o)

/-- The run from the recipe post-processing on. -/
def fromRecipe (o : Oracle) (s : St) : StepResult :=
  seqStep (recipePhase o s) (fromEngineBuild o)

/-- The run from the assembly-delegate invocation on. -/
def fromAssembly (o : Oracle) (s : St) : StepResult :=
  seqStep (assemblyPhase o s) (fromRecipe o)

/-- The run from the s2i builder-factory call on. -/
def fromFactory (o : Oracle) (s : St) : StepResult :=
  seqStep (factoryPhase o s) (fromAssembly o)

/-- The run from config validation on. -/
def fromValidate (o : Oracle) (s : St) : StepResult :=
  seqStep (validatePhase o s) (fromFactory o)

/-- The run from the allowed-UIDs parse on. -/
def fromAllowedUIDs (o : Oracle) (s : St) : StepResult :=
  seqStep (allowedUIDsPhase o s) (fromValidate o)

/-- The run from the builder-image label introspection on. -/
def fromLabels (o : Oracle) (s : St) : StepResult :=
  seqStep (labelsPhase o s) (fromAllowedUIDs o)

/-- The run from the assemble-user introspection on. -/
def fromAssembleUser (o : Oracle) (s : St) : StepResult :=
  seqStep (assembleUserPhase o s) (fromLabels o)

/-- The run from the incremental-image pull on. -/
def fromIncremental (o : Oracle) (s : St) : StepResult :=
  seqStep (incrementalPhase o s) (fromAssembleUser o)

/-- The run from the builder-image pull on. -/
def fromPullBuilder (o : Oracle) (s : St) : StepResult :=
  seqStep (pullBuilderPhase o s) (fromIncremental o)

/-- The run from the config assembly on. -/
def fromConfig (o : Oracle) (s : St) : StepResult :=
  seqStep (configPhase o s) (fromPullBuilder o)

/-- The run from the source-info read on. -/
def fromReadSourceInfo (o : Oracle) (s : St) : StepResult :=
  seqStep (readSourceInfoPhase o s) (fromConfig o)

/-- The whole body of `S2IBuilder.Build` (everything inside the deferred
handler). -/
def buildBody (o : Oracle) (s : St) : StepResult :=
  seqStep (checkStrategy s) fun s => fromReadSourceInfo o (setPushTag (setupOutput s))

/-- `timing.AppendStageAndStepInfo` — modelled from the spec: appends the
stage/step timing records accumulated in the run's timing context to the
given list (repository code in a sibling package). -/
def appendStageAndStepInfo (stages newStages : List StageStep) : List StageStep :=
  stages ++ newStages

/-- sti.go lines 142-145: the deferred handler, run on every exit from
`Build` (returns and panics alike): append the timing-context records to
`Status.Stages` and flush the status one final time. -/
def runDeferred (s : St) : St :=
  let s := { s with build := { s.build with status :=
      { s.build.status with
        stages := appendStageAndStepInfo s.build.status.stages s.stages } } }
  handleBuildStatusUpdate s

/-- Apply the deferred handler to the body's outcome. -/
def applyDeferred : StepResult → StepResult
  | .cont s => .cont (runDeferred s)
  | .halt h s => .halt h (runDeferred s)

/-- The initial run state for a build object. -/
def initSt (b : Build) : St :=
  { build := b, config := default, push := false, pushTag := "", buildTag := ""
    cwEnv := "", cwWorkdir := "", cwPassword := "", stages := [], events := [] }

/-- `S2IBuilder.Build` (sti.go lines 139-519): the whole orchestration run
of one build object against an environment of external-call results. -/
def S2IBuilder.Build (o : Oracle) (b : Build) : StepResult :=
  applyDeferred (buildBody o (initSt b))

/- ### Observations on runs -/

/-- Is this event a container-engine tag or push call? -/
def isPushCallEvent : Event → Bool
  | .tagged _ _ => true
  | .pushed _ => true
  | _ => false

/-- The trace contains no tag/push call. -/
def noPushCall (l : List Event) : Bool :=
  l.all (fun e => !(isPushCallEvent e))

/-- The tags of the push calls in the trace, in order. -/
def pushedTags (l : List Event) : List String :=
  l.filterMap (fun e => match e with
    | .pushed tag => some tag
    | _ => none)

/-- The attestation-registration payloads in the trace, in order. -/
def registeredPayloads (l : List Event) : List RegPayload :=
  l.filterMap (fun e => match e with
    | .registered payload => some payload
    | _ => none)

/-- A build spec with the source strategy's `ForcePull` flag erased (used to
state that a run changes nothing else in the spec). -/
def eraseForcePull (spec : BuildSpec) : BuildSpec :=
  { spec with sourceStrategy := spec.sourceStrategy.map (fun st => { st with forcePull := false }) }

/-- The value of the last caller-supplied image label named `k`, if any
(caller overrides are applied in order, later wins). -/
def lastValue : List ImageLabel → String → Option String
  | [], _ => none
  | lbl :: rest, k =>
    match lastValue rest k with
    | some v => some v
    | none => if lbl.name = k then some lbl.value else none

/-- The commit-ref label key. -/
def commitRefKey : String := defaultDockerLabelNamespace ++ "build.commit.ref"

/-- Swap the case of a proxy environment-variable name: uppercase and
lowercase forms map to each other, anything else is unchanged. -/
def proxyCaseSwap (n : String) : String :=
  if n = "HTTP_PROXY" then "http_proxy"
  else if n = "http_proxy" then "HTTP_PROXY"
  else if n = "HTTPS_PROXY" then "https_proxy"
  else if n = "https_proxy" then "HTTPS_PROXY"
  else n

/-- Swap the case of every proxy variable name in a strategy environment. -/
def swapEnvNames (env : List EnvVar) : List EnvVar :=
  env.map (fun e => { e with name := proxyCaseSwap e.name })

/-- The strategy environment of a build (empty when no source strategy). -/
def stratEnv (b : Build) : List EnvVar :=
  (b.spec.sourceStrategy.map SourceStrategy.env).getD []

/-- Replace the strategy environment of a build. -/
def setStrategyEnv (b : Build) (env : List EnvVar) : Build :=
  { b with spec := { b.spec with
      sourceStrategy := b.spec.sourceStrategy.map (fun st => { st with env := env }) } }

/-- The push tag the orchestrator derives (sti.go lines 151-159): the
build's own name when there is no output reference, otherwise the
caller-supplied `Status.OutputDockerImageReference`. -/
def derivedPushTag (b : Build) : String :=
  if b.spec.output.toRef = none ∨ (b.spec.output.toRef.getD default).name = "" then
    b.name
  else
    b.status.outputDockerImageReference

/- ### Concrete fixtures for witnesses and counterexamples -/

/-- A builder image with a configured user and no labels. -/
def trivImage : DockerImage := { user := "1001", labels := [] }

/-- A builder image with no configured user and no labels (keeps the
assemble-user branch inert in symbolic runs). -/
def emptyImage : DockerImage := { user := "", labels := [] }

/-- An environment in which every external call succeeds. -/
def okOracle : Oracle :=
  { readSourceInfoRes := .ok ()
    buildTag := "ns-app-1"
    parseProxyURL := fun u => .ok u
    filepathClean := fun p => p
    inspectImage := fun _ => .ok (some trivImage)
    pullBuilderRes := .ok ()
    pullIncrementalRes := .ok ()
    environment := []
    generatedLabels := []
    allowedUIDs := ""
    parseAllowedUIDs := fun _ => .ok ()
    validateConfig := fun _ => []
    factory := fun _ => .ok ()
    assemblyBuild := fun _ => (some { stages := [], failureReason := "", failureMessage := "" }, none)
    dockerfileExists := false
    recipeStepRes := .ok ()
    engineBuild1Res := .ok ()
    extractEnvRes := .ok "FOO=bar"
    inspectWorkdirRes := .ok "\x27/app\x27"
    uuidString := "uuid-1234"
    cwBuildRes := .ok "done"
    engineBuild2Res := .ok ()
    tagImageRes := .ok ()
    pushAuthPresent := false
    pushRes := .ok "sha256:abc"
    httpDoRes := .ok () }

/-- A plain build request: push target `reg/app:latest`, non-incremental. -/
def baseBuild : Build :=
  { name := "app"
    namespaceName := "ns"
    spec :=
      { sourceStrategy := some
          { forcePull := false, incremental := none, scripts := ""
            fromName := "builder:latest", env := [] }
        output := { toRef := some { name := "reg/app:latest" }, imageLabels := [] }
        source := { contextDir := "", git := none } }
    status :=
      { phase := .running, reason := "", message := ""
        outputDockerImageReference := "reg/app:latest", stages := [], outputTo := none } }

/-- `okOracle` with a builder image that has no configured user or labels. -/
def okOracleE : Oracle := { okOracle with inspectImage := fun _ => .ok (some emptyImage) }

/-- `okOracleE`, but config validation reports one error. -/
def oValidateFail : Oracle := { okOracleE with validateConfig := fun _ => ["bad config"] }

/-- `okOracleE`, but the builder image is present while the incremental
previous-output image is not, and its pull fails. -/
def oIncrFail : Oracle :=
  { okOracleE with
    inspectImage := fun tag =>
      if tag = "builder:latest" then .ok (some emptyImage) else .error "no such image"
    pullIncrementalRes := .error "pull failed" }

/-- The strategy of `baseBuild` with force-pull and incremental set. -/
def stratForcePullIncr : SourceStrategy :=
  { forcePull := true, incremental := some true, scripts := ""
    fromName := "builder:latest", env := [] }

/-- The strategy of `baseBuild` with incremental set (force-pull clear). -/
def stratIncr : SourceStrategy :=
  { forcePull := false, incremental := some true, scripts := ""
    fromName := "builder:latest", env := [] }

/-- `baseBuild` with force-pull and the incremental flag set. -/
def bForcePullIncr : Build :=
  { baseBuild with spec := { baseBuild.spec with sourceStrategy := some stratForcePullIncr } }

/-- `baseBuild` with the incremental flag set (force-pull clear). -/
def bIncr : Build :=
  { baseBuild with spec := { baseBuild.spec with sourceStrategy := some stratIncr } }

/-- `baseBuild` whose spec output reference and caller-resolved status
output reference disagree. -/
def bMismatch : Build :=
  { baseBuild with spec := { baseBuild.spec with output :=
      { toRef := some { name := "spec/other:ref" }, imageLabels := [] } } }

/-- `okOracleE` with a build tag carrying the `-cw` secure-repackaging
marker. -/
def oCw : Oracle := { okOracleE with buildTag := "ns-app-cw-1" }

/-- `oCw`, but the attestation-registration POST fails in transport
(`client.Do` returns a nil response and an error). -/
def oCwRegFail : Oracle := { oCw with httpDoRes := .error "connection refused" }

/-- `baseBuild` pushing to a reference with a non-trailing `":latest"`
occurrence. -/
def bLatestMid : Build :=
  { baseBuild with
    spec := { baseBuild.spec with output :=
      { toRef := some { name := "reg:latest/app" }, imageLabels := [] } }
    status := { baseBuild.status with outputDockerImageReference := "reg:latest/app" } }

/-- A build with an explicitly requested git ref and one caller label. -/
def bGitRef : Build :=
  { baseBuild with spec :=
      { baseBuild.spec with
        source := { contextDir := "", git := some { ref := "v2" } }
        output := { toRef := some { name := "reg/app:latest" }
                    imageLabels := [{ name := "other", value := "x" }] } } }

/-- A builder image carrying the assemble-user label with a `user:group`
value. -/
def labeledImage : DockerImage :=
  { user := "root", labels := [(assembleUserLabel, "1001:0")] }

/-- A URL parser that rejects everything. -/
def badParse : String → Except Err String := fun u => .error ("parse " ++ u)

/-- The strategy of `baseBuild` with one `HTTP_PROXY` environment variable. -/
def stratProxyHttp : SourceStrategy :=
  { forcePull := false, incremental := none, scripts := ""
    fromName := "builder:latest"
    env := [{ name := "HTTP_PROXY", value := "http://proxy" }] }

/-- `baseBuild` with one `HTTP_PROXY` strategy environment variable. -/
def bProxyHttp : Build :=
  { baseBuild with spec := { baseBuild.spec with sourceStrategy := some stratProxyHttp } }

/-- `okOracleE` whose URL parser rejects everything. -/
def oBadParse : Oracle := { okOracleE with parseProxyURL := badParse }

/-- `okOracleE` with a failing s2i builder factory. -/
def oFactoryFail : Oracle :=
  { okOracleE with factory := fun _ => .error ("factory boom", "AssembleFailed", "assembly failed") }

/-- `okOracleE` with a failing container-engine build. -/
def oEngineFail : Oracle := { okOracleE with engineBuild1Res := .error "engine boom" }

/-- A structured assembly failure record. -/
def arFail : AssemblyResult :=
  { stages := [], failureReason := "FetchSourceFailed", failureMessage := "could not clone" }

/-- `okOracleE` whose assembly delegate fails with a structured reason. -/
def oAssemblyFail : Oracle :=
  { okOracleE with assemblyBuild := fun _ => (some arFail, some "assembly boom") }

/-- The run state right after a failed incremental pull has downgraded the
config, for a build with an output reference (so `push` is set and the
push tag is the caller-resolved status output reference): the incremental
flag is cleared, the from-tag emptied, one timing record written, and the
build object untouched. -/
def downState (o : Oracle) (b : Build) (strat : SourceStrategy)
    (pc : Option ProxyConfig) : St :=
  { build := b
    config :=
      { scriptsURL := strat.scripts
        builderImage := strat.fromName
        incremental := false
        incrementalFromTag := ""
        environment := o.environment
        labels := s2iBuildLabels o.generatedLabels b
        contextDir :=
          if b.spec.source.contextDir ≠ "" then
            if o.filepathClean b.spec.source.contextDir = "." ∨
                o.filepathClean b.spec.source.contextDir = "/" then ""
            else o.filepathClean b.spec.source.contextDir
          else ""
        asDockerfile := "/tmp/dockercontext/Dockerfile"
        scriptDownloadProxyConfig := pc }
    push := true
    pushTag := b.status.outputDockerImageReference
    buildTag := o.buildTag
    cwEnv := "", cwWorkdir := "", cwPassword := ""
    stages := [{ stage := "PullImages", step := "PullInputImage" }]
    events := [] }

/-- `baseBuild` without an output reference. -/
def bNoOutput : Build :=
  { baseBuild with spec := { baseBuild.spec with output :=
      { toRef := none, imageLabels := [] } } }

/-- A mid-run state poised at the incremental pull: incremental is set and
the previous output tag is known. -/
def sIncrW : St :=
  { initSt bIncr with config :=
      { (default : S2IConfig) with incremental := true, incrementalFromTag := "reg/app:latest" } }

/-- `okOracleE` with a failing push. -/
def oPushFail : Oracle := { okOracleE with pushRes := .error "push boom" }

/-- `okOracleE` whose image inspection always errors (so the base image is
pulled, successfully, but introspection then fails). -/
def oInspectFail : Oracle := { okOracleE with inspectImage := fun _ => .error "inspect boom" }

/-- `okOracleE` with an absent base image and a failing base-image pull. -/
def oBasePullFail : Oracle :=
  { okOracleE with
    inspectImage := fun _ => .error "no such image"
    pullBuilderRes := .error "pull boom" }

/-- `okOracleE` with a generated dockerfile whose post-processing fails. -/
def oRecipeFail : Oracle :=
  { okOracleE with dockerfileExists := true, recipeStepRes := .error "parse boom" }

/-- `oCw` with a failing environment-extraction process. -/
def oCwFail : Oracle := { oCw with extractEnvRes := .error "extract boom" }

/-- `okOracleE` with a failing tag operation. -/
def oTagFail : Oracle := { okOracleE with tagImageRes := .error "tag boom" }

/- ### Invariant predicates over the pipeline -/

/-- What a single phase of the body preserves about the state: the
status-stages list, the status output reference, the spec up to the
force-pull flag, the push flag, the push tag; and it only appends events,
none of which is a tag/push call while `push` is false. -/
def PhaseInv (s t : St) : Prop :=
  t.build.status.stages = s.build.status.stages ∧
  t.build.status.outputDockerImageReference = s.build.status.outputDockerImageReference ∧
  eraseForcePull t.build.spec = eraseForcePull s.build.spec ∧
  t.push = s.push ∧
  t.pushTag = s.pushTag ∧
  ∃ l, t.events = s.events ++ l ∧ (s.push = false → noPushCall l = true)

/-- What every phase after the incremental fallback preserves about the
config: its incremental flag and incremental-from tag. -/
def CfgInv (s t : St) : Prop :=
  t.config.incremental = s.config.incremental ∧
  t.config.incrementalFromTag = s.config.incrementalFromTag

/- ### Helper lemmas: maps -/

theorem mapGet_map_replace (m : List (String × String)) (k v : String) :
    mapGet (m.map (fun p => if p.1 = k then (k, v) else p)) k =
      if (mapGet m k).isSome then some v else none := by
  induction m with
  | nil => simp [mapGet]
  | cons p rest ih =>
    obtain ⟨k2, w⟩ := p
    by_cases h : k2 = k
    · subst h
      simp only [List.map_cons, if_true, Prod.mk.injEq, eq_self_iff_true, and_true, true_and]
      simp [mapGet, ih]
    · simp only [List.map_cons]
      rw [show (if (k2, w).1 = k then (k, v) else (k2, w)) = (k2, w) from if_neg h]
      simp [mapGet, h, ih]

theorem mapGet_append_single (m : List (String × String)) (k v : String) :
    mapGet (m ++ [(k, v)]) k = if (mapGet m k).isSome then mapGet m k else some v := by
  induction m with
  | nil => simp [mapGet]
  | cons p rest ih =>
    obtain ⟨k2, w⟩ := p
    by_cases h : k2 = k <;> simp [mapGet, h, ih]

theorem mapGet_mapSet_self (m : List (String × String)) (k v : String) :
    mapGet (mapSet m k v) k = some v := by
  unfold mapSet
  by_cases h : (mapGet m k).isSome
  · simp [h, mapGet_map_replace]
  · simp [h, mapGet_append_single]

theorem mapGet_map_replace_ne (m : List (String × String)) (k v k' : String)
    (h : k' ≠ k) :
    mapGet (m.map (fun p => if p.1 = k then (k, v) else p)) k' = mapGet m k' := by
  induction m with
  | nil => rfl
  | cons p rest ih =>
    obtain ⟨k2, w⟩ := p
    by_cases h2 : k2 = k
    · subst h2
      simp only [List.map_cons, if_true, Prod.mk.injEq, eq_self_iff_true, and_true, true_and]
      simp [mapGet, Ne.symm h, ih]
    · simp only [List.map_cons]
      rw [show (if (k2, w).1 = k then (k, v) else (k2, w)) = (k2, w) from if_neg h2]
      simp [mapGet, ih]

theorem mapGet_append_single_ne (m : List (String × String)) (k v k' : String)
    (h : k' ≠ k) :
    mapGet (m ++ [(k, v)]) k' = mapGet m k' := by
  induction m with
  | nil => simp [mapGet, Ne.symm h]
  | cons p rest ih =>
    obtain ⟨k2, w⟩ := p
    by_cases h2 : k2 = k' <;> simp [mapGet, h2, ih]

theorem mapGet_mapSet_ne (m : List (String × String)) (k v k' : String)
    (h : k' ≠ k) :
    mapGet (mapSet m k v) k' = mapGet m k' := by
  unfold mapSet
  by_cases hs : (mapGet m k).isSome
  · simp [hs, mapGet_map_replace_ne m k v k' h]
  · simp [hs, mapGet_append_single_ne m k v k' h]

theorem mapGet_foldl_mapSet (ls : List ImageLabel) (m : List (String × String))
    (k : String) :
    mapGet (ls.foldl (fun labels lbl => mapSet labels lbl.name lbl.value) m) k =
      match lastValue ls k with
      | some v => some v
      | none => mapGet m k := by
  induction ls generalizing m with
  | nil => simp [lastValue]
  | cons lbl rest ih =>
    rw [List.foldl_cons, ih]
    simp only [lastValue]
    cases hlv : lastValue rest k with
    | some v => simp [hlv]
    | none =>
      by_cases h : lbl.name = k
      · subst h
        simp [hlv, mapGet_mapSet_self]
      · have hne : k ≠ lbl.name := fun hk => h hk.symm
        simp [hlv, h, mapGet_mapSet_ne m lbl.name lbl.value k hne]

/- ### C9: label override order -/

/-- C9: for every build request and source-info, an explicitly requested
git-ref value overrides the source-info-derived commit-ref label (the
produced label set maps the commit-ref key to the requested ref whatever
the generated labels said, unless a caller label overrides it), and
caller-supplied label overrides (output image labels) are applied last,
winning over both (the last caller label for a key decides that key). -/
theorem c9_label_override_order (generatedLabels : List (String × String)) (build : Build)
    (g : GitBuildSource) (hgit : build.spec.source.git = some g) (href : g.ref ≠ "") :
    (lastValue build.spec.output.imageLabels commitRefKey = none →
      mapGet (s2iBuildLabels generatedLabels build) commitRefKey = some g.ref) ∧
    (∀ k v, lastValue build.spec.output.imageLabels k = some v →
      mapGet (s2iBuildLabels generatedLabels build) k = some v) := by
  constructor
  · intro hlast
    simp only [s2iBuildLabels, hgit, ne_eq, href, not_false_iff, if_true, ite_true]
    rw [mapGet_foldl_mapSet]
    simp only [commitRefKey] at hlast ⊢
    rw [hlast, mapGet_mapSet_self]
  · intro k v hlast
    simp only [s2iBuildLabels, hgit, ne_eq, href, not_false_iff, if_true, ite_true]
    rw [mapGet_foldl_mapSet, hlast]

/-- Witness for C9 at a concrete build: the commit-ref label equals the
requested ref `"v2"`, and the caller label `other=x` survives to the end. -/
theorem c9_label_override_order_witness :
    (lastValue bGitRef.spec.output.imageLabels commitRefKey = none →
      mapGet (s2iBuildLabels [(commitRefKey, "derived")] bGitRef) commitRefKey = some "v2") ∧
    (∀ k v, lastValue bGitRef.spec.output.imageLabels k = some v →
      mapGet (s2iBuildLabels [(commitRefKey, "derived")] bGitRef) k = some v) :=
  c9_label_override_order [(commitRefKey, "derived")] bGitRef { ref := "v2" }
    (by decide) (by decide)

/- ### Helper lemmas: strings (for C8) -/

theorem containsSub_single_iff (c : Char) (l : List Char) :
    containsSub [c] l = true ↔ c ∈ l := by
  induction l with
  | nil => simp [containsSub]
  | cons x rest ih =>
    unfold containsSub
    by_cases h : c = x
    · subst h
      simp [List.isPrefixOf]
    · simp [List.isPrefixOf, h, ih]

theorem takeUntil_append (c : Char) (l₁ l₂ : List Char) (h : c ∉ l₁) :
    takeUntil c (l₁ ++ c :: l₂) = l₁ := by
  induction l₁ with
  | nil => simp [takeUntil]
  | cons x rest ih =>
    simp only [List.mem_cons, not_or] at h
    have hx : x ≠ c := fun hxc => h.1 hxc.symm
    rw [List.cons_append]
    simp only [takeUntil]
    rw [if_neg hx, ih h.2]

/- ### C8: assemble-user resolution -/

/-- C8: the resolved assemble user defaults to the image's configured
runtime user; the well-known assemble-user label, when present, overrides
it; and a resolved value of the form `user:group` (with a colon-free user
part) keeps only the whitespace-trimmed user component. -/
theorem c8_assemble_user_resolution :
    (∀ image : DockerImage, mapGet image.labels assembleUserLabel = none →
      getAssembleUser image = extractUser image.user) ∧
    (∀ (image : DockerImage) (v : String), mapGet image.labels assembleUserLabel = some v →
      getAssembleUser image = extractUser v) ∧
    (∀ u g : String, stringContains u ":" = false →
      extractUser (u ++ ":" ++ g) = trimSpace u) := by
  refine ⟨?_, ?_, ?_⟩
  · intro image hnone
    unfold getAssembleUser
    rw [hnone]
  · intro image v hsome
    unfold getAssembleUser
    rw [hsome]
  · intro u g h
    have hmem : ':' ∉ u.data := by
      intro hc
      have := (containsSub_single_iff ':' u.data).mpr hc
      rw [stringContains] at h
      rw [show (":" : String).data = [':'] from rfl] at h
      rw [this] at h
      exact Bool.noConfusion h
    have hdata : (u ++ ":" ++ g).data = u.data ++ ':' :: g.data := by
      rw [String.data_append, String.data_append]
      rw [show (":" : String).data = [':'] from rfl]
      simp
    unfold extractUser
    rw [stringContains, show (":" : String).data = [':'] from rfl, hdata]
    rw [if_pos ((containsSub_single_iff ':' _).mpr (by simp))]
    rw [takeUntil_append ':' u.data g.data hmem]

/-- Witness for C8 at concrete images: the label `1001:0` on `labeledImage`
overrides the configured user `root` and resolves to `1001`; the unlabeled
`trivImage` resolves to its configured user. -/
theorem c8_assemble_user_resolution_witness :
    (getAssembleUser trivImage = extractUser trivImage.user) ∧
    (getAssembleUser labeledImage = extractUser "1001:0") ∧
    (extractUser ("1001" ++ ":" ++ "0") = trimSpace "1001") :=
  ⟨c8_assemble_user_resolution.1 trivImage (by decide),
   c8_assemble_user_resolution.2.1 labeledImage "1001:0" (by decide),
   c8_assemble_user_resolution.2.2 "1001" "0" (by decide)⟩

/- ### Helper lemmas: proxy scanning (for C7) -/

theorem proxyScanStep_swap (acc : String × String) (e : EnvVar) :
    proxyScanStep acc { e with name := proxyCaseSwap e.name } = proxyScanStep acc e := by
  unfold proxyScanStep proxyCaseSwap
  by_cases h1 : e.name = "HTTP_PROXY"
  · simp [h1]
  · by_cases h2 : e.name = "http_proxy"
    · simp [h1, h2]
    · by_cases h3 : e.name = "HTTPS_PROXY"
      · simp [h1, h2, h3]
      · by_cases h4 : e.name = "https_proxy"
        · simp [h1, h2, h3, h4]
        · simp [h1, h2, h3, h4]

theorem foldl_proxyScanStep_map_swap (env : List EnvVar) (acc : String × String) :
    (env.map (fun e => { e with name := proxyCaseSwap e.name })).foldl proxyScanStep acc =
      env.foldl proxyScanStep acc := by
  induction env generalizing acc with
  | nil => rfl
  | cons e rest ih =>
    simp only [List.map_cons, List.foldl_cons]
    rw [proxyScanStep_swap, ih]

theorem resolveProxyEnv_swap (env : List EnvVar) :
    resolveProxyEnv (swapEnvNames env) = resolveProxyEnv env := by
  unfold resolveProxyEnv swapEnvNames
  exact foldl_proxyScanStep_map_swap env ("", "")

theorem foldl_proxyScanStep_id (env : List EnvVar) (acc : String × String)
    (h : ∀ e ∈ env, e.name ≠ "HTTP_PROXY" ∧ e.name ≠ "http_proxy" ∧
      e.name ≠ "HTTPS_PROXY" ∧ e.name ≠ "https_proxy") :
    env.foldl proxyScanStep acc = acc := by
  induction env generalizing acc with
  | nil => rfl
  | cons e rest ih =>
    obtain ⟨h1, h2, h3, h4⟩ := h e (List.mem_cons_self e rest)
    rw [List.foldl_cons,
      show proxyScanStep acc e = acc from by unfold proxyScanStep; simp [h1, h2, h3, h4]]
    exact ih _ (fun e2 he2 => h e2 (List.mem_cons_of_mem e he2))

theorem scriptProxyConfig_congr (p : String → Except Err String) (b1 b2 : Build)
    (h : b1.spec = b2.spec) : scriptProxyConfig p b1 = scriptProxyConfig p b2 := by
  unfold scriptProxyConfig
  rw [h]

theorem setupOutput_build_spec (s : St) : (setupOutput s).build.spec = s.build.spec := by
  unfold setupOutput
  split <;> rfl

theorem setupOutput_status_phase (s : St) :
    (setupOutput s).build.status.phase = s.build.status.phase := by
  unfold setupOutput
  split <;> rfl

/- ### C7: proxy configuration -/

/-- C7: proxy configuration scans the strategy environment for
HTTP_PROXY/HTTPS_PROXY with the uppercase and lowercase key forms resolving
identically (swapping the case of every proxy key leaves the result
unchanged); when neither variable is set the result is a nil proxy config
and no error; and when either set value fails URL parsing, the
configuration step fails and a run of `Build` returns that error to the
caller. -/
theorem c7_proxy_configuration :
    (∀ (p : String → Except Err String) (b : Build),
      scriptProxyConfig p (setStrategyEnv b (swapEnvNames (stratEnv b))) =
        scriptProxyConfig p b) ∧
    (∀ (p : String → Except Err String) (b : Build),
      (∀ e ∈ stratEnv b, e.name ≠ "HTTP_PROXY" ∧ e.name ≠ "http_proxy" ∧
        e.name ≠ "HTTPS_PROXY" ∧ e.name ≠ "https_proxy") →
      scriptProxyConfig p b = .ok none) ∧
    (∀ (p : String → Except Err String) (b : Build) (hp hs e : String),
      resolveProxyEnv (stratEnv b) = (hp, hs) → hp ≠ "" → p hp = .error e →
      scriptProxyConfig p b = .error e) ∧
    (∀ (p : String → Except Err String) (b : Build) (hs e : String),
      resolveProxyEnv (stratEnv b) = ("", hs) → hs ≠ "" → p hs = .error e →
      scriptProxyConfig p b = .error e) ∧
    (∀ (o : Oracle) (b : Build) (strat : SourceStrategy) (e : Err),
      b.spec.sourceStrategy = some strat → o.readSourceInfoRes = .ok () →
      scriptProxyConfig o.parseProxyURL b = .error e →
      (S2IBuilder.Build o b).outcome = some (.fail e) ∧
      (S2IBuilder.Build o b).state.build.status.phase = b.status.phase) := by
  refine ⟨?_, ?_, ?_, ?_, ?_⟩
  · intro p b
    simp [scriptProxyConfig, setStrategyEnv, stratEnv]
    cases hso : b.spec.sourceStrategy with
    | none => simp [hso]
    | some st => simp [hso, resolveProxyEnv_swap]
  · intro p b h
    simp only [scriptProxyConfig]
    unfold stratEnv at h
    rw [show resolveProxyEnv ((b.spec.sourceStrategy.map SourceStrategy.env).getD []) =
          ("", "") from by unfold resolveProxyEnv; exact foldl_proxyScanStep_id _ _ h]
    simp
  · intro p b hp hs e hres hne herr
    simp only [scriptProxyConfig]
    unfold stratEnv at hres
    rw [hres]
    rw [if_neg (by simp [hne]), if_pos (by simp [hne])]
    rw [herr]
  · intro p b hs e hres hne herr
    simp only [scriptProxyConfig]
    unfold stratEnv at hres
    rw [hres]
    rw [if_neg (by simp [hne]), if_neg (by simp)]
    rw [herr]
  · intro o b strat e hs hsrc herr
    have hspec : (setPushTag (setupOutput (initSt b))).build.spec = b.spec := by
      show (setupOutput (initSt b)).build.spec = (initSt b).build.spec
      exact setupOutput_build_spec (initSt b)
    have herr2 : scriptProxyConfig o.parseProxyURL (setPushTag (setupOutput (initSt b))).build
        = .error e := by
      rw [scriptProxyConfig_congr o.parseProxyURL _ b hspec]
      exact herr
    have hcheck : checkStrategy (initSt b) = .cont (initSt b) := by
      unfold checkStrategy
      rw [show (initSt b).build.spec.sourceStrategy = some strat from hs]
    have hbody : buildBody o (initSt b) =
        .halt (.fail e) (setPushTag (setupOutput (initSt b))) := by
      unfold buildBody
      rw [hcheck]
      show fromReadSourceInfo o (setPushTag (setupOutput (initSt b))) = _
      unfold fromReadSourceInfo readSourceInfoPhase
      rw [hsrc]
      show fromConfig o (setPushTag (setupOutput (initSt b))) = _
      unfold fromConfig configPhase
      rw [herr2]
      rfl
    have hrun : S2IBuilder.Build o b =
        .halt (.fail e) (runDeferred (setPushTag (setupOutput (initSt b)))) := by
      unfold S2IBuilder.Build
      rw [hbody]
      rfl
    rw [hrun]
    refine ⟨rfl, ?_⟩
    show (runDeferred (setPushTag (setupOutput (initSt b)))).build.status.phase
        = b.status.phase
    simp only [runDeferred, handleBuildStatusUpdate, addEvent, appendStageAndStepInfo, setPushTag]
    exact setupOutput_status_phase (initSt b)

/-- Witness for C7 at concrete inputs: case-swapping is invariant on a
build with `HTTP_PROXY` set; an empty environment yields a nil config; a
rejected `HTTP_PROXY` (resp. lowercase `https_proxy`) value fails; and the
run with a rejected proxy value returns the parse error with the status
phase unchanged. -/
theorem c7_proxy_configuration_witness :
    (scriptProxyConfig badParse (setStrategyEnv bProxyHttp (swapEnvNames (stratEnv bProxyHttp)))
      = scriptProxyConfig badParse bProxyHttp) ∧
    (scriptProxyConfig badParse baseBuild = .ok none) ∧
    (scriptProxyConfig badParse bProxyHttp = .error "parse http://proxy") ∧
    (scriptProxyConfig badParse
        (setStrategyEnv baseBuild [{ name := "https_proxy", value := "u" }])
      = .error "parse u") ∧
    ((S2IBuilder.Build oBadParse bProxyHttp).outcome = some (.fail "parse http://proxy") ∧
      (S2IBuilder.Build oBadParse bProxyHttp).state.build.status.phase
        = bProxyHttp.status.phase) :=
  ⟨c7_proxy_configuration.1 badParse bProxyHttp,
   c7_proxy_configuration.2.1 badParse baseBuild (by decide),
   c7_proxy_configuration.2.2.1 badParse bProxyHttp "http://proxy" "" "parse http://proxy"
     (by decide) (by decide) rfl,
   c7_proxy_configuration.2.2.2.1 badParse
     (setStrategyEnv baseBuild [{ name := "https_proxy", value := "u" }]) "u" "parse u"
     (by decide) (by decide) rfl,
   c7_proxy_configuration.2.2.2.2 oBadParse bProxyHttp stratProxyHttp "parse http://proxy"
     (by decide) rfl rfl⟩

/- ### Helper lemmas: the phase invariant -/

theorem phaseInv_refl (s : St) : PhaseInv s s :=
  ⟨rfl, rfl, rfl, rfl, rfl, [], by simp, fun _ => rfl⟩

theorem phaseInv_trans {s t u : St} (h1 : PhaseInv s t) (h2 : PhaseInv t u) :
    PhaseInv s u := by
  obtain ⟨a1, b1, c1, d1, e1, l1, f1, g1⟩ := h1
  obtain ⟨a2, b2, c2, d2, e2, l2, f2, g2⟩ := h2
  refine ⟨a2.trans a1, b2.trans b1, c2.trans c1, d2.trans d1, e2.trans e1,
    l1 ++ l2, ?_, ?_⟩
  · rw [f2, f1, List.append_assoc]
  · intro hp
    have hg1 := g1 hp
    have hg2 := g2 (d1.trans hp)
    unfold noPushCall at *
    rw [List.all_append, hg1, hg2]
    rfl

theorem phaseInv_seq {r : StepResult} {f : St → StepResult} {s : St}
    (hr : PhaseInv s r.state) (hf : ∀ t, PhaseInv t ((f t).state)) :
    PhaseInv s ((seqStep r f).state) := by
  cases r with
  | cont t => exact phaseInv_trans hr (hf t)
  | halt h t => exact hr

theorem phaseInv_of_build_eq {s t : St} (hb : t.build = s.build) (hp : t.push = s.push)
    (hpt : t.pushTag = s.pushTag) (he : t.events = s.events) : PhaseInv s t :=
  ⟨by rw [hb], by rw [hb], by rw [hb], hp, hpt, [], by simp [he], fun _ => rfl⟩

theorem eraseForcePull_setForcePull (b : Build) (v : Bool) :
    eraseForcePull (setForcePull b v).spec = eraseForcePull b.spec := by
  unfold eraseForcePull setForcePull
  cases hso : b.spec.sourceStrategy <;> simp [hso]

/- ### Per-phase invariant lemmas -/

theorem checkStrategy_inv (s : St) : PhaseInv s (checkStrategy s).state := by
  unfold checkStrategy
  split <;> exact phaseInv_refl _

theorem readSourceInfoPhase_inv (o : Oracle) (s : St) :
    PhaseInv s ((readSourceInfoPhase o s).state) := by
  unfold readSourceInfoPhase
  split <;> exact phaseInv_refl _

theorem configPhase_inv (o : Oracle) (s : St) :
    PhaseInv s ((configPhase o s).state) := by
  unfold configPhase
  split
  · exact phaseInv_refl _
  · exact phaseInv_of_build_eq rfl rfl rfl rfl

theorem pullBuilderPhase_inv (o : Oracle) (s : St) :
    PhaseInv s ((pullBuilderPhase o s).state) := by
  unfold pullBuilderPhase
  split
  · split <;> exact phaseInv_of_build_eq rfl rfl rfl rfl
  · exact phaseInv_refl _

theorem incrementalPhase_inv (o : Oracle) (s : St) :
    PhaseInv s ((incrementalPhase o s).state) := by
  unfold incrementalPhase
  split
  · split
    · split
      · exact phaseInv_of_build_eq rfl rfl rfl rfl
      · exact ⟨rfl, rfl, eraseForcePull_setForcePull s.build false, rfl, rfl, [],
          by simp [recordStep, StepResult.state], fun _ => rfl⟩
    · exact phaseInv_refl _
  · exact phaseInv_refl _

theorem assembleUserPhase_inv (o : Oracle) (s : St) :
    PhaseInv s ((assembleUserPhase o s).state) := by
  unfold assembleUserPhase
  split
  · exact phaseInv_refl _
  · exact phaseInv_refl _
  · dsimp only
    split
    · exact phaseInv_of_build_eq rfl rfl rfl rfl
    · exact phaseInv_refl _

theorem labelsPhase_inv (o : Oracle) (s : St) :
    PhaseInv s ((labelsPhase o s).state) := by
  unfold labelsPhase
  split
  · exact phaseInv_refl _
  · exact phaseInv_refl _
  · dsimp only
    split <;> split <;> first
      | exact phaseInv_of_build_eq rfl rfl rfl rfl
      | (split <;> exact phaseInv_of_build_eq rfl rfl rfl rfl)

theorem allowedUIDsPhase_inv (o : Oracle) (s : St) :
    PhaseInv s ((allowedUIDsPhase o s).state) := by
  unfold allowedUIDsPhase
  split
  · split <;> exact phaseInv_refl _
  · exact phaseInv_refl _

theorem validatePhase_inv (o : Oracle) (s : St) :
    PhaseInv s ((validatePhase o s).state) := by
  unfold validatePhase
  split <;> exact phaseInv_refl _

theorem phaseInv_addEvent_own (s : St) (e : Event) (h : isPushCallEvent e = false) :
    PhaseInv s (addEvent s e) :=
  ⟨rfl, rfl, rfl, rfl, rfl, [e], rfl, fun _ => by simp [noPushCall, h]⟩

theorem phaseInv_builderCreated (s : St) (c : S2IConfig) :
    PhaseInv s (addEvent s (.builderCreated c)) :=
  ⟨rfl, rfl, rfl, rfl, rfl, [.builderCreated c], rfl, fun _ => rfl⟩

theorem phaseInv_registered (s : St) (p : RegPayload) :
    PhaseInv s (addEvent s (.registered p)) :=
  ⟨rfl, rfl, rfl, rfl, rfl, [.registered p], rfl, fun _ => rfl⟩

theorem phaseInv_logRegistrationError (s : St) (e : Err) :
    PhaseInv s (addEvent s (.logRegistrationError e)) :=
  ⟨rfl, rfl, rfl, rfl, rfl, [.logRegistrationError e], rfl, fun _ => rfl⟩

theorem phaseInv_addEvent_push (s : St) (e : Event) (h : s.push = true) :
    PhaseInv s (addEvent s e) :=
  ⟨rfl, rfl, rfl, rfl, rfl, [e], rfl, fun hp => Bool.noConfusion (h.symm.trans hp)⟩

theorem phaseInv_setPhase (s : St) (ph : BuildPhase) (r m : String) :
    PhaseInv s (setPhase s ph r m) :=
  ⟨rfl, rfl, rfl, rfl, rfl, [], by simp [setPhase], fun _ => rfl⟩

theorem phaseInv_handleUpdate (s : St) : PhaseInv s (handleBuildStatusUpdate s) :=
  ⟨rfl, rfl, rfl, rfl, rfl, [.statusUpdate s.build.status], rfl, fun _ => rfl⟩

theorem phaseInv_recordStep (s : St) (a b : String) : PhaseInv s (recordStep s a b) :=
  ⟨rfl, rfl, rfl, rfl, rfl, [], by simp [recordStep], fun _ => rfl⟩

theorem phaseInv_setStages (s : St) (st : List StageStep) :
    PhaseInv s { s with stages := st } :=
  ⟨rfl, rfl, rfl, rfl, rfl, [], by simp, fun _ => rfl⟩

theorem phaseInv_setOutputTo (s : St) (x : Option BuildStatusOutputTo) :
    PhaseInv s { s with build := { s.build with status :=
      { s.build.status with outputTo := x } } } :=
  ⟨rfl, rfl, rfl, rfl, rfl, [], by simp, fun _ => rfl⟩

theorem factoryPhase_inv (o : Oracle) (s : St) :
    PhaseInv s ((factoryPhase o s).state) := by
  unfold factoryPhase
  dsimp only
  split
  · exact phaseInv_trans (phaseInv_builderCreated s _)
      (phaseInv_trans (phaseInv_setPhase _ _ _ _) (phaseInv_handleUpdate _))
  · exact phaseInv_builderCreated s _

theorem assemblyPhase_inv (o : Oracle) (s : St) :
    PhaseInv s ((assemblyPhase o s).state) := by
  unfold assemblyPhase
  split
  · exact phaseInv_refl _
  · split
    · exact phaseInv_trans (phaseInv_setStages _ _)
        (phaseInv_trans (phaseInv_setPhase _ _ _ _) (phaseInv_handleUpdate _))
    · exact phaseInv_setStages _ _

theorem recipePhase_inv (o : Oracle) (s : St) :
    PhaseInv s ((recipePhase o s).state) := by
  unfold recipePhase
  split
  · split <;> exact phaseInv_refl _
  · exact phaseInv_refl _

theorem engineBuildPhase_inv (o : Oracle) (s : St) :
    PhaseInv s ((engineBuildPhase o s).state) := by
  unfold engineBuildPhase
  dsimp only
  split
  · exact phaseInv_trans (phaseInv_recordStep _ _ _) (phaseInv_setPhase _ _ _ _)
  · exact phaseInv_recordStep _ _ _

theorem cwPhase_inv (o : Oracle) (s : St) :
    PhaseInv s ((cwPhase o s).state) := by
  unfold cwPhase
  split
  · split
    · exact phaseInv_refl _
    · dsimp only
      split
      · exact phaseInv_of_build_eq rfl rfl rfl rfl
      · split
        · exact phaseInv_of_build_eq rfl rfl rfl rfl
        · split
          · exact phaseInv_of_build_eq rfl rfl rfl rfl
          · exact phaseInv_of_build_eq rfl rfl rfl rfl
  · exact phaseInv_refl _

theorem digestPhase_inv (o : Oracle) (digest : String) (s : St) :
    PhaseInv s ((digestPhase o digest s).state) := by
  unfold digestPhase
  split
  · dsimp only
    apply phaseInv_seq
    · split
      · split
        · exact phaseInv_trans (phaseInv_registered s _)
            (phaseInv_logRegistrationError _ _)
        · exact phaseInv_registered s _
      · exact phaseInv_refl _
    · intro t
      exact phaseInv_trans (phaseInv_setOutputTo t _) (phaseInv_handleUpdate _)
  · exact phaseInv_refl _

theorem pushPhase_inv (o : Oracle) (s : St) :
    PhaseInv s ((pushPhase o s).state) := by
  unfold pushPhase
  split
  · rename_i hpush
    dsimp only
    split
    · exact phaseInv_addEvent_push s _ hpush
    · split
      · exact phaseInv_trans (phaseInv_addEvent_push s _ hpush)
          (phaseInv_trans (phaseInv_addEvent_push _ _ hpush)
            (phaseInv_trans (phaseInv_recordStep _ _ _)
              (phaseInv_trans (phaseInv_setPhase _ _ _ _) (phaseInv_handleUpdate _))))
      · exact phaseInv_trans (phaseInv_addEvent_push s _ hpush)
          (phaseInv_trans (phaseInv_addEvent_push _ _ hpush)
            (phaseInv_trans (phaseInv_recordStep _ _ _) (digestPhase_inv o _ _)))
  · exact phaseInv_refl _

/- ### Chain invariant lemmas: each pipeline suffix satisfies `PhaseInv` -/

theorem fromPush_inv (o : Oracle) (s : St) : PhaseInv s ((fromPush o s).state) :=
  pushPhase_inv o s

theorem fromCw_inv (o : Oracle) (s : St) : PhaseInv s ((fromCw o s).state) :=
  phaseInv_seq (cwPhase_inv o s) (fromPush_inv o)

theorem fromEngineBuild_inv (o : Oracle) (s : St) :
    PhaseInv s ((fromEngineBuild o s).state) :=
  phaseInv_seq (engineBuildPhase_inv o s) (fromCw_inv o)

theorem fromRecipe_inv (o : Oracle) (s : St) : PhaseInv s ((fromRecipe o s).state) :=
  phaseInv_seq (recipePhase_inv o s) (fromEngineBuild_inv o)

theorem fromAssembly_inv (o : Oracle) (s : St) : PhaseInv s ((fromAssembly o s).state) :=
  phaseInv_seq (assemblyPhase_inv o s) (fromRecipe_inv o)

theorem fromFactory_inv (o : Oracle) (s : St) : PhaseInv s ((fromFactory o s).state) :=
  phaseInv_seq (factoryPhase_inv o s) (fromAssembly_inv o)

theorem fromValidate_inv (o : Oracle) (s : St) : PhaseInv s ((fromValidate o s).state) :=
  phaseInv_seq (validatePhase_inv o s) (fromFactory_inv o)

theorem fromAllowedUIDs_inv (o : Oracle) (s : St) :
    PhaseInv s ((fromAllowedUIDs o s).state) :=
  phaseInv_seq (allowedUIDsPhase_inv o s) (fromValidate_inv o)

theorem fromLabels_inv (o : Oracle) (s : St) : PhaseInv s ((fromLabels o s).state) :=
  phaseInv_seq (labelsPhase_inv o s) (fromAllowedUIDs_inv o)

theorem fromAssembleUser_inv (o : Oracle) (s : St) :
    PhaseInv s ((fromAssembleUser o s).state) :=
  phaseInv_seq (assembleUserPhase_inv o s) (fromLabels_inv o)

theorem fromIncremental_inv (o : Oracle) (s : St) :
    PhaseInv s ((fromIncremental o s).state) :=
  phaseInv_seq (incrementalPhase_inv o s) (fromAssembleUser_inv o)

theorem fromPullBuilder_inv (o : Oracle) (s : St) :
    PhaseInv s ((fromPullBuilder o s).state) :=
  phaseInv_seq (pullBuilderPhase_inv o s) (fromIncremental_inv o)

theorem fromConfig_inv (o : Oracle) (s : St) : PhaseInv s ((fromConfig o s).state) :=
  phaseInv_seq (configPhase_inv o s) (fromPullBuilder_inv o)

theorem fromReadSourceInfo_inv (o : Oracle) (s : St) :
    PhaseInv s ((fromReadSourceInfo o s).state) :=
  phaseInv_seq (readSourceInfoPhase_inv o s) (fromConfig_inv o)

/- ### Properties of the deferred handler and of `setupOutput` -/

theorem runDeferred_events (s : St) :
    (runDeferred s).events = s.events ++
      [.statusUpdate (runDeferred s).build.status] := rfl

theorem runDeferred_status_stages (s : St) :
    (runDeferred s).build.status.stages = s.build.status.stages ++ s.stages := rfl

theorem runDeferred_stages (s : St) : (runDeferred s).stages = s.stages := rfl

theorem runDeferred_phase (s : St) :
    (runDeferred s).build.status.phase = s.build.status.phase := rfl

theorem runDeferred_reason (s : St) :
    (runDeferred s).build.status.reason = s.build.status.reason := rfl

theorem runDeferred_message (s : St) :
    (runDeferred s).build.status.message = s.build.status.message := rfl

theorem runDeferred_outputRef (s : St) :
    (runDeferred s).build.status.outputDockerImageReference =
      s.build.status.outputDockerImageReference := rfl

theorem runDeferred_spec (s : St) : (runDeferred s).build.spec = s.build.spec := rfl

theorem runDeferred_config (s : St) : (runDeferred s).config = s.config := rfl

theorem runDeferred_pushTag (s : St) : (runDeferred s).pushTag = s.pushTag := rfl

theorem applyDeferred_state (r : StepResult) :
    (applyDeferred r).state = runDeferred r.state := by
  cases r <;> rfl

theorem setupOutput_status_stages (s : St) :
    (setupOutput s).build.status.stages = s.build.status.stages := by
  unfold setupOutput
  split <;> rfl

theorem setupOutput_stages (s : St) : (setupOutput s).stages = s.stages := by
  unfold setupOutput
  split <;> rfl

theorem setupOutput_events (s : St) : (setupOutput s).events = s.events := by
  unfold setupOutput
  split <;> rfl

theorem setupOutput_status_reason (s : St) :
    (setupOutput s).build.status.reason = s.build.status.reason := by
  unfold setupOutput
  split <;> rfl

theorem setupOutput_status_message (s : St) :
    (setupOutput s).build.status.message = s.build.status.message := by
  unfold setupOutput
  split <;> rfl

/- ### C10: the deferred status handler runs on every path -/

/-- C10: on every return path of `Build` — success or any error, including
the earliest validation errors (the quantification over the oracle covers
them all) — the deferred handler appends the timing records accumulated in
the run's timing context to the build status's stage list, and the last
externally visible event of the run is one final status update carrying the
final status. -/
theorem c10_deferred_status_update (o : Oracle) (b : Build) :
    (S2IBuilder.Build o b).state.events.getLast? =
      some (.statusUpdate (S2IBuilder.Build o b).state.build.status) ∧
    (S2IBuilder.Build o b).state.build.status.stages =
      b.status.stages ++ (S2IBuilder.Build o b).state.stages := by
  have hstate : (S2IBuilder.Build o b).state = runDeferred (buildBody o (initSt b)).state := by
    unfold S2IBuilder.Build
    exact applyDeferred_state _
  have hbodystages : (buildBody o (initSt b)).state.build.status.stages = b.status.stages := by
    unfold buildBody
    refine Eq.trans ?_ (rfl : (initSt b).build.status.stages = b.status.stages)
    cases hcs : checkStrategy (initSt b) with
    | halt h t =>
      have := checkStrategy_inv (initSt b)
      rw [hcs] at this
      simpa [seqStep] using this.1
    | cont t =>
      have hps := checkStrategy_inv (initSt b)
      rw [hcs] at hps
      have h2 := fromReadSourceInfo_inv o (setPushTag (setupOutput t))
      have h3 : (setPushTag (setupOutput t)).build.status.stages
          = (initSt b).build.status.stages := by
        show (setupOutput t).build.status.stages = (initSt b).build.status.stages
        rw [setupOutput_status_stages]
        exact hps.1
      simp only [seqStep]
      exact h2.1.trans h3
  constructor
  · rw [hstate, runDeferred_events]
    exact List.getLast?_concat _
  · rw [hstate, runDeferred_status_stages, runDeferred_stages, hbodystages]

/- ### Evaluation support for whole-run theorems -/

theorem getAssembleUser_emptyImage : getAssembleUser emptyImage = "" := by decide

theorem emptyImage_labels : emptyImage.labels = [] := rfl

theorem noPushCall_append (a b : List Event) :
    noPushCall (a ++ b) = (noPushCall a && noPushCall b) := by
  unfold noPushCall
  exact List.all_append

attribute [simp] S2IBuilder.Build buildBody applyDeferred runDeferred
  handleBuildStatusUpdate addEvent appendStageAndStepInfo recordStep setPhase
  seqStep initSt St.strat StepResult.state StepResult.outcome checkStrategy
  setupOutput setPushTag readSourceInfoPhase configPhase pullBuilderPhase
  incrementalPhase assembleUserPhase labelsPhase allowedUIDsPhase validatePhase
  factoryPhase assemblyPhase recipePhase engineBuildPhase cwPhase pushPhase
  digestPhase fromPush fromCw fromEngineBuild fromRecipe fromAssembly
  fromFactory fromValidate fromAllowedUIDs fromLabels fromAssembleUser
  fromIncremental fromPullBuilder fromConfig fromReadSourceInfo isImagePresent
  setForcePull pushedTags registeredPayloads

/- ### C1: error propagation policy -/

/-- C1 counterexample: a run whose config validation fails returns the
error, but the build status keeps its prior phase (`running`) — no failed
phase and no reason/message are set — contradicting the claim that every
error class other than incremental pull failure sets BuildStatus to a
failed phase. -/
theorem c1_counterexample :
    (S2IBuilder.Build oValidateFail baseBuild).outcome = some (.fail "bad config, ") ∧
    (S2IBuilder.Build oValidateFail baseBuild).state.build.status.phase = .running ∧
    BuildPhase.running ≠ BuildPhase.failed := by decide

/-- C1 (amended): incremental pull failure is recovered locally (the run
continues with the config downgraded and no status change); failures of the
s2i builder factory, of the assembly delegate, of the container-engine
build, and of the push set BuildStatus to a failed phase with a
reason/message pair and return the error; failures of config validation,
image introspection, the base-image pull, recipe processing, the
secure-repackaging steps, and the tag call return the error to the caller
without touching the status phase/reason/message.  Each conjunct pins a
run prefix and derives the outcome and final status of `Build`. -/
theorem c1_error_propagation :
    -- (1) config validation failure: error returned, status untouched
    (∀ (o : Oracle) (b : Build) (strat : SourceStrategy) (pc : Option ProxyConfig)
      (r : ObjectRef) (e : Err),
      b.spec.output.toRef = some r → ¬(r.name = "") →
      b.spec.sourceStrategy = some strat → o.readSourceInfoRes = .ok () →
      scriptProxyConfig o.parseProxyURL b = .ok pc → strat.forcePull = false →
      o.inspectImage strat.fromName = .ok (some emptyImage) →
      strat.incremental = none → o.allowedUIDs = "" →
      (∀ c, o.validateConfig c = [e]) →
      (S2IBuilder.Build o b).outcome = some (.fail (e ++ ", ")) ∧
      (S2IBuilder.Build o b).state.build.status.phase = b.status.phase ∧
      (S2IBuilder.Build o b).state.build.status.reason = b.status.reason ∧
      (S2IBuilder.Build o b).state.build.status.message = b.status.message) ∧
    -- (2) image introspection failure: error returned, status untouched
    (∀ (o : Oracle) (b : Build) (strat : SourceStrategy) (pc : Option ProxyConfig)
      (r : ObjectRef) (e : Err),
      b.spec.output.toRef = some r → ¬(r.name = "") →
      b.spec.sourceStrategy = some strat → o.readSourceInfoRes = .ok () →
      scriptProxyConfig o.parseProxyURL b = .ok pc → strat.forcePull = false →
      o.inspectImage strat.fromName = .error e → o.pullBuilderRes = .ok () →
      strat.incremental = none →
      (S2IBuilder.Build o b).outcome = some (.fail e) ∧
      (S2IBuilder.Build o b).state.build.status.phase = b.status.phase) ∧
    -- (3) base-image pull failure: error returned, status untouched
    (∀ (o : Oracle) (b : Build) (strat : SourceStrategy) (pc : Option ProxyConfig)
      (r : ObjectRef) (e e2 : Err),
      b.spec.output.toRef = some r → ¬(r.name = "") →
      b.spec.sourceStrategy = some strat → o.readSourceInfoRes = .ok () →
      scriptProxyConfig o.parseProxyURL b = .ok pc → strat.forcePull = false →
      o.inspectImage strat.fromName = .error e → o.pullBuilderRes = .error e2 →
      (S2IBuilder.Build o b).outcome = some (.fail e2) ∧
      (S2IBuilder.Build o b).state.build.status.phase = b.status.phase) ∧
    -- (4) s2i builder-factory failure: failed phase + reason/message + error
    (∀ (o : Oracle) (b : Build) (strat : SourceStrategy) (pc : Option ProxyConfig)
      (r : ObjectRef) (e : Err) (rsn msg : String),
      b.spec.output.toRef = some r → ¬(r.name = "") →
      b.spec.sourceStrategy = some strat → o.readSourceInfoRes = .ok () →
      scriptProxyConfig o.parseProxyURL b = .ok pc → strat.forcePull = false →
      o.inspectImage strat.fromName = .ok (some emptyImage) →
      strat.incremental = none → o.allowedUIDs = "" →
      (∀ c, o.validateConfig c = []) →
      (∀ c, o.factory c = .error (e, rsn, msg)) →
      (S2IBuilder.Build o b).outcome = some (.fail e) ∧
      (S2IBuilder.Build o b).state.build.status.phase = .failed ∧
      (S2IBuilder.Build o b).state.build.status.reason = rsn ∧
      (S2IBuilder.Build o b).state.build.status.message = msg) ∧
    -- (5) assembly-delegate failure: failed phase + structured reason/message
    (∀ (o : Oracle) (b : Build) (strat : SourceStrategy) (pc : Option ProxyConfig)
      (r : ObjectRef) (e : Err) (ar : AssemblyResult),
      b.spec.output.toRef = some r → ¬(r.name = "") →
      b.spec.sourceStrategy = some strat → o.readSourceInfoRes = .ok () →
      scriptProxyConfig o.parseProxyURL b = .ok pc → strat.forcePull = false →
      o.inspectImage strat.fromName = .ok (some emptyImage) →
      strat.incremental = none → o.allowedUIDs = "" →
      (∀ c, o.validateConfig c = []) → (∀ c, o.factory c = .ok ()) →
      (∀ c, o.assemblyBuild c = (some ar, some e)) →
      (S2IBuilder.Build o b).outcome = some (.fail e) ∧
      (S2IBuilder.Build o b).state.build.status.phase = .failed ∧
      (S2IBuilder.Build o b).state.build.status.reason = ar.failureReason ∧
      (S2IBuilder.Build o b).state.build.status.message = ar.failureMessage) ∧
    -- (6) recipe-processing failure: error returned, status untouched
    (∀ (o : Oracle) (b : Build) (strat : SourceStrategy) (pc : Option ProxyConfig)
      (r : ObjectRef) (e : Err) (ar : AssemblyResult),
      b.spec.output.toRef = some r → ¬(r.name = "") →
      b.spec.sourceStrategy = some strat → o.readSourceInfoRes = .ok () →
      scriptProxyConfig o.parseProxyURL b = .ok pc → strat.forcePull = false →
      o.inspectImage strat.fromName = .ok (some emptyImage) →
      strat.incremental = none → o.allowedUIDs = "" →
      (∀ c, o.validateConfig c = []) → (∀ c, o.factory c = .ok ()) →
      (∀ c, o.assemblyBuild c = (some ar, none)) →
      o.dockerfileExists = true → o.recipeStepRes = .error e →
      (S2IBuilder.Build o b).outcome = some (.fail e) ∧
      (S2IBuilder.Build o b).state.build.status.phase = b.status.phase) ∧
    -- (7) container-engine build failure: failed phase + generic reason/message
    (∀ (o : Oracle) (b : Build) (strat : SourceStrategy) (pc : Option ProxyConfig)
      (r : ObjectRef) (e : Err) (ar : AssemblyResult),
      b.spec.output.toRef = some r → ¬(r.name = "") →
      b.spec.sourceStrategy = some strat → o.readSourceInfoRes = .ok () →
      scriptProxyConfig o.parseProxyURL b = .ok pc → strat.forcePull = false →
      o.inspectImage strat.fromName = .ok (some emptyImage) →
      strat.incremental = none → o.allowedUIDs = "" →
      (∀ c, o.validateConfig c = []) → (∀ c, o.factory c = .ok ()) →
      (∀ c, o.assemblyBuild c = (some ar, none)) →
      o.dockerfileExists = false → o.engineBuild1Res = .error e →
      (S2IBuilder.Build o b).outcome = some (.fail e) ∧
      (S2IBuilder.Build o b).state.build.status.phase = .failed ∧
      (S2IBuilder.Build o b).state.build.status.reason = statusReasonGenericBuildFailed ∧
      (S2IBuilder.Build o b).state.build.status.message = statusMessageGenericBuildFailed) ∧
    -- (8) secure-repackaging failure: error returned, status untouched
    (∀ (o : Oracle) (b : Build) (strat : SourceStrategy) (pc : Option ProxyConfig)
      (r : ObjectRef) (e : Err) (ar : AssemblyResult),
      b.spec.output.toRef = some r → ¬(r.name = "") →
      b.spec.sourceStrategy = some strat → o.readSourceInfoRes = .ok () →
      scriptProxyConfig o.parseProxyURL b = .ok pc → strat.forcePull = false →
      o.inspectImage strat.fromName = .ok (some emptyImage) →
      strat.incremental = none → o.allowedUIDs = "" →
      (∀ c, o.validateConfig c = []) → (∀ c, o.factory c = .ok ()) →
      (∀ c, o.assemblyBuild c = (some ar, none)) →
      o.dockerfileExists = false → o.engineBuild1Res = .ok () →
      stringContains o.buildTag "-cw" = true → o.extractEnvRes = .error e →
      (S2IBuilder.Build o b).outcome = some (.fail e) ∧
      (S2IBuilder.Build o b).state.build.status.phase = b.status.phase) ∧
    -- (9) tag failure: error returned, status untouched
    (∀ (o : Oracle) (b : Build) (strat : SourceStrategy) (pc : Option ProxyConfig)
      (r : ObjectRef) (e : Err) (ar : AssemblyResult),
      b.spec.output.toRef = some r → ¬(r.name = "") →
      b.spec.sourceStrategy = some strat → o.readSourceInfoRes = .ok () →
      scriptProxyConfig o.parseProxyURL b = .ok pc → strat.forcePull = false →
      o.inspectImage strat.fromName = .ok (some emptyImage) →
      strat.incremental = none → o.allowedUIDs = "" →
      (∀ c, o.validateConfig c = []) → (∀ c, o.factory c = .ok ()) →
      (∀ c, o.assemblyBuild c = (some ar, none)) →
      o.dockerfileExists = false → o.engineBuild1Res = .ok () →
      stringContains o.buildTag "-cw" = false → o.tagImageRes = .error e →
      (S2IBuilder.Build o b).outcome = some (.fail e) ∧
      (S2IBuilder.Build o b).state.build.status.phase = b.status.phase) ∧
    -- (10) push failure: failed phase + push reason/message + wrapped error
    (∀ (o : Oracle) (b : Build) (strat : SourceStrategy) (pc : Option ProxyConfig)
      (r : ObjectRef) (e : Err) (ar : AssemblyResult),
      b.spec.output.toRef = some r → ¬(r.name = "") →
      b.spec.sourceStrategy = some strat → o.readSourceInfoRes = .ok () →
      scriptProxyConfig o.parseProxyURL b = .ok pc → strat.forcePull = false →
      o.inspectImage strat.fromName = .ok (some emptyImage) →
      strat.incremental = none → o.allowedUIDs = "" →
      (∀ c, o.validateConfig c = []) → (∀ c, o.factory c = .ok ()) →
      (∀ c, o.assemblyBuild c = (some ar, none)) →
      o.dockerfileExists = false → o.engineBuild1Res = .ok () →
      stringContains o.buildTag "-cw" = false → o.tagImageRes = .ok () →
      o.pushRes = .error e →
      (S2IBuilder.Build o b).outcome =
        some (.fail (reportPushFailure e o.pushAuthPresent)) ∧
      (S2IBuilder.Build o b).state.build.status.phase = .failed ∧
      (S2IBuilder.Build o b).state.build.status.reason
        = statusReasonPushImageToRegistryFailed ∧
      (S2IBuilder.Build o b).state.build.status.message
        = statusMessagePushImageToRegistryFailed) ∧
    -- (11) incremental pull failure: recovered locally, no status change
    (∀ (o : Oracle) (s : St) (e : Err),
      s.config.incremental = true → s.strat.forcePull = false →
      isImagePresent o.inspectImage s.config.incrementalFromTag = false →
      o.pullIncrementalRes = .error e →
      incrementalPhase o s = .cont
        { recordStep s "PullImages" "PullInputImage" with
          config := { s.config with incremental := false, incrementalFromTag := "" } }) := by
  refine ⟨?_, ?_, ?_, ?_, ?_, ?_, ?_, ?_, ?_, ?_, ?_⟩
  · intro o b strat pc r e hout hr hs hsrc hproxy hfp hinspect hinc hau hval
    simp [hout, hr, hs, hsrc, hproxy, hfp, hinspect, hinc, hau, hval,
      getAssembleUser_emptyImage, emptyImage_labels, mapGetD, mapGet, String.join]
  · intro o b strat pc r e hout hr hs hsrc hproxy hfp hinspect hpb hinc
    simp [hout, hr, hs, hsrc, hproxy, hfp, hinspect, hpb, hinc]
  · intro o b strat pc r e e2 hout hr hs hsrc hproxy hfp hinspect hpb
    simp [hout, hr, hs, hsrc, hproxy, hfp, hinspect, hpb]
  · intro o b strat pc r e rsn msg hout hr hs hsrc hproxy hfp hinspect hinc hau hval hfac
    simp [hout, hr, hs, hsrc, hproxy, hfp, hinspect, hinc, hau, hval, hfac,
      getAssembleUser_emptyImage, emptyImage_labels, mapGetD, mapGet]
  · intro o b strat pc r e ar hout hr hs hsrc hproxy hfp hinspect hinc hau hval hfac hasm
    simp [hout, hr, hs, hsrc, hproxy, hfp, hinspect, hinc, hau, hval, hfac, hasm,
      getAssembleUser_emptyImage, emptyImage_labels, mapGetD, mapGet]
  · intro o b strat pc r e ar hout hr hs hsrc hproxy hfp hinspect hinc hau hval hfac hasm
      hdf hrec
    simp [hout, hr, hs, hsrc, hproxy, hfp, hinspect, hinc, hau, hval, hfac, hasm, hdf,
      hrec, getAssembleUser_emptyImage, emptyImage_labels, mapGetD, mapGet]
  · intro o b strat pc r e ar hout hr hs hsrc hproxy hfp hinspect hinc hau hval hfac hasm
      hdf heng
    simp [hout, hr, hs, hsrc, hproxy, hfp, hinspect, hinc, hau, hval, hfac, hasm, hdf,
      heng, getAssembleUser_emptyImage, emptyImage_labels, mapGetD, mapGet]
  · intro o b strat pc r e ar hout hr hs hsrc hproxy hfp hinspect hinc hau hval hfac hasm
      hdf heng hcw hext
    simp [hout, hr, hs, hsrc, hproxy, hfp, hinspect, hinc, hau, hval, hfac, hasm, hdf,
      heng, hcw, hext, getAssembleUser_emptyImage, emptyImage_labels, mapGetD, mapGet]
  · intro o b strat pc r e ar hout hr hs hsrc hproxy hfp hinspect hinc hau hval hfac hasm
      hdf heng hcw htag
    simp [hout, hr, hs, hsrc, hproxy, hfp, hinspect, hinc, hau, hval, hfac, hasm, hdf,
      heng, hcw, htag, getAssembleUser_emptyImage, emptyImage_labels, mapGetD, mapGet]
  · intro o b strat pc r e ar hout hr hs hsrc hproxy hfp hinspect hinc hau hval hfac hasm
      hdf heng hcw htag hpush
    simp [hout, hr, hs, hsrc, hproxy, hfp, hinspect, hinc, hau, hval, hfac, hasm, hdf,
      heng, hcw, htag, hpush, getAssembleUser_emptyImage, emptyImage_labels, mapGetD, mapGet]
  · intro o s e hinc hfp hpres hpull
    simp only [isImagePresent] at hpres
    simp [hinc, hfp, hpres, hpull, recordStep]

/-- Witness for C1: each conjunct of the propagation policy instantiated at
a concrete failing oracle. -/
theorem c1_error_propagation_witness :
    ((S2IBuilder.Build oValidateFail baseBuild).outcome
        = some (.fail ("bad config" ++ ", ")) ∧
      (S2IBuilder.Build oValidateFail baseBuild).state.build.status.phase
        = baseBuild.status.phase ∧
      (S2IBuilder.Build oValidateFail baseBuild).state.build.status.reason
        = baseBuild.status.reason ∧
      (S2IBuilder.Build oValidateFail baseBuild).state.build.status.message
        = baseBuild.status.message) ∧
    ((S2IBuilder.Build oInspectFail baseBuild).outcome = some (.fail "inspect boom") ∧
      (S2IBuilder.Build oInspectFail baseBuild).state.build.status.phase
        = baseBuild.status.phase) ∧
    ((S2IBuilder.Build oBasePullFail baseBuild).outcome = some (.fail "pull boom") ∧
      (S2IBuilder.Build oBasePullFail baseBuild).state.build.status.phase
        = baseBuild.status.phase) ∧
    ((S2IBuilder.Build oFactoryFail baseBuild).outcome = some (.fail "factory boom") ∧
      (S2IBuilder.Build oFactoryFail baseBuild).state.build.status.phase = .failed ∧
      (S2IBuilder.Build oFactoryFail baseBuild).state.build.status.reason
        = "AssembleFailed" ∧
      (S2IBuilder.Build oFactoryFail baseBuild).state.build.status.message
        = "assembly failed") ∧
    ((S2IBuilder.Build oAssemblyFail baseBuild).outcome = some (.fail "assembly boom") ∧
      (S2IBuilder.Build oAssemblyFail baseBuild).state.build.status.phase = .failed ∧
      (S2IBuilder.Build oAssemblyFail baseBuild).state.build.status.reason
        = arFail.failureReason ∧
      (S2IBuilder.Build oAssemblyFail baseBuild).state.build.status.message
        = arFail.failureMessage) ∧
    ((S2IBuilder.Build oRecipeFail baseBuild).outcome = some (.fail "parse boom") ∧
      (S2IBuilder.Build oRecipeFail baseBuild).state.build.status.phase
        = baseBuild.status.phase) ∧
    ((S2IBuilder.Build oEngineFail baseBuild).outcome = some (.fail "engine boom") ∧
      (S2IBuilder.Build oEngineFail baseBuild).state.build.status.phase = .failed ∧
      (S2IBuilder.Build oEngineFail baseBuild).state.build.status.reason
        = statusReasonGenericBuildFailed ∧
      (S2IBuilder.Build oEngineFail baseBuild).state.build.status.message
        = statusMessageGenericBuildFailed) ∧
    ((S2IBuilder.Build oCwFail baseBuild).outcome = some (.fail "extract boom") ∧
      (S2IBuilder.Build oCwFail baseBuild).state.build.status.phase
        = baseBuild.status.phase) ∧
    ((S2IBuilder.Build oTagFail baseBuild).outcome = some (.fail "tag boom") ∧
      (S2IBuilder.Build oTagFail baseBuild).state.build.status.phase
        = baseBuild.status.phase) ∧
    ((S2IBuilder.Build oPushFail baseBuild).outcome
        = some (.fail (reportPushFailure "push boom" oPushFail.pushAuthPresent)) ∧
      (S2IBuilder.Build oPushFail baseBuild).state.build.status.phase = .failed ∧
      (S2IBuilder.Build oPushFail baseBuild).state.build.status.reason
        = statusReasonPushImageToRegistryFailed ∧
      (S2IBuilder.Build oPushFail baseBuild).state.build.status.message
        = statusMessagePushImageToRegistryFailed) ∧
    (incrementalPhase oIncrFail sIncrW = .cont
      { recordStep sIncrW "PullImages" "PullInputImage" with
        config := { sIncrW.config with incremental := false, incrementalFromTag := "" } }) :=
  ⟨c1_error_propagation.1 oValidateFail baseBuild
      { forcePull := false, incremental := none, scripts := ""
        fromName := "builder:latest", env := [] } none
      { name := "reg/app:latest" } "bad config"
      rfl (by decide) rfl rfl rfl rfl rfl rfl rfl (fun _ => rfl),
   c1_error_propagation.2.1 oInspectFail baseBuild
      { forcePull := false, incremental := none, scripts := ""
        fromName := "builder:latest", env := [] } none
      { name := "reg/app:latest" } "inspect boom"
      rfl (by decide) rfl rfl rfl rfl rfl rfl rfl,
   c1_error_propagation.2.2.1 oBasePullFail baseBuild
      { forcePull := false, incremental := none, scripts := ""
        fromName := "builder:latest", env := [] } none
      { name := "reg/app:latest" } "no such image" "pull boom"
      rfl (by decide) rfl rfl rfl rfl rfl rfl,
   c1_error_propagation.2.2.2.1 oFactoryFail baseBuild
      { forcePull := false, incremental := none, scripts := ""
        fromName := "builder:latest", env := [] } none
      { name := "reg/app:latest" } "factory boom" "AssembleFailed" "assembly failed"
      rfl (by decide) rfl rfl rfl rfl rfl rfl rfl (fun _ => rfl) (fun _ => rfl),
   c1_error_propagation.2.2.2.2.1 oAssemblyFail baseBuild
      { forcePull := false, incremental := none, scripts := ""
        fromName := "builder:latest", env := [] } none
      { name := "reg/app:latest" } "assembly boom" arFail
      rfl (by decide) rfl rfl rfl rfl rfl rfl rfl (fun _ => rfl) (fun _ => rfl)
      (fun _ => rfl),
   c1_error_propagation.2.2.2.2.2.1 oRecipeFail baseBuild
      { forcePull := false, incremental := none, scripts := ""
        fromName := "builder:latest", env := [] } none
      { name := "reg/app:latest" } "parse boom"
      { stages := [], failureReason := "", failureMessage := "" }
      rfl (by decide) rfl rfl rfl rfl rfl rfl rfl (fun _ => rfl) (fun _ => rfl)
      (fun _ => rfl) rfl rfl,
   c1_error_propagation.2.2.2.2.2.2.1 oEngineFail baseBuild
      { forcePull := false, incremental := none, scripts := ""
        fromName := "builder:latest", env := [] } none
      { name := "reg/app:latest" } "engine boom"
      { stages := [], failureReason := "", failureMessage := "" }
      rfl (by decide) rfl rfl rfl rfl rfl rfl rfl (fun _ => rfl) (fun _ => rfl)
      (fun _ => rfl) rfl rfl,
   c1_error_propagation.2.2.2.2.2.2.2.1 oCwFail baseBuild
      { forcePull := false, incremental := none, scripts := ""
        fromName := "builder:latest", env := [] } none
      { name := "reg/app:latest" } "extract boom"
      { stages := [], failureReason := "", failureMessage := "" }
      rfl (by decide) rfl rfl rfl rfl rfl rfl rfl (fun _ => rfl) (fun _ => rfl)
      (fun _ => rfl) rfl rfl (by decide) rfl,
   c1_error_propagation.2.2.2.2.2.2.2.2.1 oTagFail baseBuild
      { forcePull := false, incremental := none, scripts := ""
        fromName := "builder:latest", env := [] } none
      { name := "reg/app:latest" } "tag boom"
      { stages := [], failureReason := "", failureMessage := "" }
      rfl (by decide) rfl rfl rfl rfl rfl rfl rfl (fun _ => rfl) (fun _ => rfl)
      (fun _ => rfl) rfl rfl (by decide) rfl,
   c1_error_propagation.2.2.2.2.2.2.2.2.2.1 oPushFail baseBuild
      { forcePull := false, incremental := none, scripts := ""
        fromName := "builder:latest", env := [] } none
      { name := "reg/app:latest" } "push boom"
      { stages := [], failureReason := "", failureMessage := "" }
      rfl (by decide) rfl rfl rfl rfl rfl rfl rfl (fun _ => rfl) (fun _ => rfl)
      (fun _ => rfl) rfl rfl (by decide) rfl rfl,
   c1_error_propagation.2.2.2.2.2.2.2.2.2.2 oIncrFail sIncrW "pull failed"
      rfl rfl (by decide) rfl⟩

/- ### Config preservation after the incremental phase -/

theorem cfgInv_refl (s : St) : CfgInv s s := ⟨rfl, rfl⟩

theorem cfgInv_trans {s t u : St} (h1 : CfgInv s t) (h2 : CfgInv t u) : CfgInv s u :=
  ⟨h2.1.trans h1.1, h2.2.trans h1.2⟩

theorem cfgInv_seq {r : StepResult} {f : St → StepResult} {s : St}
    (hr : CfgInv s r.state) (hf : ∀ t, CfgInv t ((f t).state)) :
    CfgInv s ((seqStep r f).state) := by
  cases r with
  | cont t => exact cfgInv_trans hr (hf t)
  | halt h t => exact hr

theorem assembleUserPhase_cfg (o : Oracle) (s : St) :
    CfgInv s ((assembleUserPhase o s).state) := by
  unfold assembleUserPhase
  split
  · exact cfgInv_refl _
  · exact cfgInv_refl _
  · dsimp only
    split <;> exact ⟨rfl, rfl⟩

theorem labelsPhase_cfg (o : Oracle) (s : St) :
    CfgInv s ((labelsPhase o s).state) := by
  unfold labelsPhase
  split
  · exact cfgInv_refl _
  · exact cfgInv_refl _
  · dsimp only
    split <;> split <;> first
      | exact ⟨rfl, rfl⟩
      | (split <;> exact ⟨rfl, rfl⟩)

theorem allowedUIDsPhase_cfg (o : Oracle) (s : St) :
    CfgInv s ((allowedUIDsPhase o s).state) := by
  unfold allowedUIDsPhase
  split
  · split <;> exact cfgInv_refl _
  · exact cfgInv_refl _

theorem validatePhase_cfg (o : Oracle) (s : St) :
    CfgInv s ((validatePhase o s).state) := by
  unfold validatePhase
  split <;> exact cfgInv_refl _

theorem factoryPhase_cfg (o : Oracle) (s : St) :
    CfgInv s ((factoryPhase o s).state) := by
  unfold factoryPhase
  dsimp only
  split <;> exact ⟨rfl, rfl⟩

theorem assemblyPhase_cfg (o : Oracle) (s : St) :
    CfgInv s ((assemblyPhase o s).state) := by
  unfold assemblyPhase
  split
  · exact cfgInv_refl _
  · split <;> exact ⟨rfl, rfl⟩

theorem recipePhase_cfg (o : Oracle) (s : St) :
    CfgInv s ((recipePhase o s).state) := by
  unfold recipePhase
  split
  · split <;> exact cfgInv_refl _
  · exact cfgInv_refl _

theorem engineBuildPhase_cfg (o : Oracle) (s : St) :
    CfgInv s ((engineBuildPhase o s).state) := by
  unfold engineBuildPhase
  dsimp only
  split <;> exact ⟨rfl, rfl⟩

theorem cwPhase_cfg (o : Oracle) (s : St) : CfgInv s ((cwPhase o s).state) := by
  unfold cwPhase
  split
  · split
    · exact cfgInv_refl _
    · dsimp only
      split
      · exact ⟨rfl, rfl⟩
      · split
        · exact ⟨rfl, rfl⟩
        · split <;> exact ⟨rfl, rfl⟩
  · exact cfgInv_refl _

theorem digestPhase_cfg (o : Oracle) (digest : String) (s : St) :
    CfgInv s ((digestPhase o digest s).state) := by
  unfold digestPhase
  split
  · dsimp only
    apply cfgInv_seq
    · split
      · split <;> exact ⟨rfl, rfl⟩
      · exact cfgInv_refl _
    · intro t
      exact ⟨rfl, rfl⟩
  · exact cfgInv_refl _

theorem pushPhase_cfg (o : Oracle) (s : St) : CfgInv s ((pushPhase o s).state) := by
  unfold pushPhase
  split
  · dsimp only
    split
    · exact ⟨rfl, rfl⟩
    · split
      · exact ⟨rfl, rfl⟩
      · exact cfgInv_trans (⟨rfl, rfl⟩ : CfgInv s _) (digestPhase_cfg o _ _)
  · exact cfgInv_refl _

theorem fromPush_cfg (o : Oracle) (s : St) : CfgInv s ((fromPush o s).state) :=
  pushPhase_cfg o s

theorem fromCw_cfg (o : Oracle) (s : St) : CfgInv s ((fromCw o s).state) :=
  cfgInv_seq (cwPhase_cfg o s) (fromPush_cfg o)

theorem fromEngineBuild_cfg (o : Oracle) (s : St) :
    CfgInv s ((fromEngineBuild o s).state) :=
  cfgInv_seq (engineBuildPhase_cfg o s) (fromCw_cfg o)

theorem fromRecipe_cfg (o : Oracle) (s : St) : CfgInv s ((fromRecipe o s).state) :=
  cfgInv_seq (recipePhase_cfg o s) (fromEngineBuild_cfg o)

theorem fromAssembly_cfg (o : Oracle) (s : St) : CfgInv s ((fromAssembly o s).state) :=
  cfgInv_seq (assemblyPhase_cfg o s) (fromRecipe_cfg o)

theorem fromFactory_cfg (o : Oracle) (s : St) : CfgInv s ((fromFactory o s).state) :=
  cfgInv_seq (factoryPhase_cfg o s) (fromAssembly_cfg o)

theorem fromValidate_cfg (o : Oracle) (s : St) : CfgInv s ((fromValidate o s).state) :=
  cfgInv_seq (validatePhase_cfg o s) (fromFactory_cfg o)

theorem fromAllowedUIDs_cfg (o : Oracle) (s : St) :
    CfgInv s ((fromAllowedUIDs o s).state) :=
  cfgInv_seq (allowedUIDsPhase_cfg o s) (fromValidate_cfg o)

theorem fromLabels_cfg (o : Oracle) (s : St) : CfgInv s ((fromLabels o s).state) :=
  cfgInv_seq (labelsPhase_cfg o s) (fromAllowedUIDs_cfg o)

theorem fromAssembleUser_cfg (o : Oracle) (s : St) :
    CfgInv s ((fromAssembleUser o s).state) :=
  cfgInv_seq (assembleUserPhase_cfg o s) (fromLabels_cfg o)

/- ### C2: incremental pull failure fallback -/

/-- C2: when the incremental flag is set and a previous-output from-tag is
known, a failing retried pull of that image is absorbed: the incremental
phase continues (returns no error) with `config.Incremental = false` and
`config.IncrementalFromTag = ""`, leaving the build object — and hence the
status phase — untouched; and in a full run with that prefix, the body
proceeds into the next phase with the downgraded config and unchanged build
object, and the final state of the run still carries
`config.Incremental = false` and `config.IncrementalFromTag = ""` whatever
the remaining phases do. -/
theorem c2_incremental_fallback :
    (∀ (o : Oracle) (s : St) (e : Err),
      s.config.incremental = true → s.strat.forcePull = false →
      isImagePresent o.inspectImage s.config.incrementalFromTag = false →
      o.pullIncrementalRes = .error e →
      incrementalPhase o s = .cont
        { recordStep s "PullImages" "PullInputImage" with
          config := { s.config with incremental := false, incrementalFromTag := "" } }) ∧
    (∀ (o : Oracle) (b : Build) (strat : SourceStrategy) (pc : Option ProxyConfig)
      (r : ObjectRef) (e : Err),
      b.spec.output.toRef = some r → ¬(r.name = "") →
      b.spec.sourceStrategy = some strat → o.readSourceInfoRes = .ok () →
      scriptProxyConfig o.parseProxyURL b = .ok pc → strat.forcePull = false →
      o.inspectImage strat.fromName = .ok (some emptyImage) →
      strat.incremental = some true →
      isImagePresent o.inspectImage b.status.outputDockerImageReference = false →
      o.pullIncrementalRes = .error e →
      buildBody o (initSt b) = fromAssembleUser o (downState o b strat pc) ∧
      (downState o b strat pc).build = b ∧
      (downState o b strat pc).config.incremental = false ∧
      (downState o b strat pc).config.incrementalFromTag = "" ∧
      (S2IBuilder.Build o b).state.config.incremental = false ∧
      (S2IBuilder.Build o b).state.config.incrementalFromTag = "") := by
  constructor
  · intro o s e hinc hfp hpres hpull
    simp only [isImagePresent] at hpres
    simp [hinc, hfp, hpres, hpull, recordStep]
  · intro o b strat pc r e hout hr hs hsrc hproxy hfp hinspect hincT hnp hpull
    simp only [isImagePresent] at hnp
    have hpref : buildBody o (initSt b) = fromAssembleUser o (downState o b strat pc) := by
      simp [hout, hr, hs, hsrc, hproxy, hfp, hinspect, hincT, hnp, hpull, downState]
    refine ⟨hpref, rfl, rfl, rfl, ?_, ?_⟩
    · show (applyDeferred (buildBody o (initSt b))).state.config.incremental = false
      rw [applyDeferred_state, runDeferred_config, hpref,
        (fromAssembleUser_cfg o (downState o b strat pc)).1]
      rfl
    · show (applyDeferred (buildBody o (initSt b))).state.config.incrementalFromTag = ""
      rw [applyDeferred_state, runDeferred_config, hpref,
        (fromAssembleUser_cfg o (downState o b strat pc)).2]
      rfl

/-- Witness for C2 at a concrete run: the incremental pull of
`reg/app:latest` fails under `oIncrFail`, the phase continues with the
downgraded config, and the full run ends with incremental still cleared. -/
theorem c2_incremental_fallback_witness :
    (incrementalPhase oIncrFail sIncrW = .cont
      { recordStep sIncrW "PullImages" "PullInputImage" with
        config := { sIncrW.config with incremental := false, incrementalFromTag := "" } }) ∧
    (buildBody oIncrFail (initSt bIncr)
        = fromAssembleUser oIncrFail (downState oIncrFail bIncr stratIncr none) ∧
      (downState oIncrFail bIncr stratIncr none).build = bIncr ∧
      (downState oIncrFail bIncr stratIncr none).config.incremental = false ∧
      (downState oIncrFail bIncr stratIncr none).config.incrementalFromTag = "" ∧
      (S2IBuilder.Build oIncrFail bIncr).state.config.incremental = false ∧
      (S2IBuilder.Build oIncrFail bIncr).state.config.incrementalFromTag = "") :=
  ⟨c2_incremental_fallback.1 oIncrFail sIncrW "pull failed" rfl rfl (by decide) rfl,
   c2_incremental_fallback.2 oIncrFail bIncr stratIncr none
     { name := "reg/app:latest" } "pull failed"
     rfl (by decide) rfl rfl rfl rfl rfl rfl (by decide) rfl⟩

/- ### C4: the request is read-only — except for ForcePull -/

/-- C4 counterexample: a run with force-pull and incremental set, whose
incremental pull succeeds, clears the request's
`Spec.Strategy.SourceStrategy.ForcePull` flag — the build spec is modified,
contradicting the claim that no field of the request changes. -/
theorem c4_counterexample :
    bForcePullIncr.spec.sourceStrategy.map SourceStrategy.forcePull = some true ∧
    (S2IBuilder.Build okOracleE bForcePullIncr).state.build.spec.sourceStrategy.map
      SourceStrategy.forcePull = some false ∧
    (S2IBuilder.Build okOracleE bForcePullIncr).state.build.spec ≠ bForcePullIncr.spec := by
  decide

/-- C4 (amended): the build request is read-only to the orchestrator except
for the source-strategy `ForcePull` flag (cleared after a successful
incremental pull): on every run, for every environment, the final build
spec agrees with the initial one once the force-pull flag is erased from
both. -/
theorem c4_request_readonly_except_forcepull (o : Oracle) (b : Build) :
    eraseForcePull (S2IBuilder.Build o b).state.build.spec = eraseForcePull b.spec := by
  show eraseForcePull (applyDeferred (buildBody o (initSt b))).state.build.spec
    = eraseForcePull b.spec
  rw [applyDeferred_state, runDeferred_spec]
  unfold buildBody
  cases hcs : checkStrategy (initSt b) with
  | halt h t =>
    have hinv := checkStrategy_inv (initSt b)
    rw [hcs] at hinv
    simpa [seqStep, StepResult.state] using hinv.2.2.1
  | cont t =>
    have hinv := checkStrategy_inv (initSt b)
    rw [hcs] at hinv
    have h2 := fromReadSourceInfo_inv o (setPushTag (setupOutput t))
    simp only [seqStep]
    refine h2.2.2.1.trans ?_
    have hsp : (setPushTag (setupOutput t)).build.spec = t.build.spec :=
      setupOutput_build_spec t
    rw [show eraseForcePull (setPushTag (setupOutput t)).build.spec
        = eraseForcePull t.build.spec from by rw [hsp]]
    exact hinv.2.2.1

/- ### C5: push-tag derivation -/

/-- C5 counterexample: with an output reference present, the pushed tag is
the caller-resolved `Status.OutputDockerImageReference`, not the spec's
`Output.To` name verbatim — here the spec says `spec/other:ref` but the run
pushes `reg/app:latest`. -/
theorem c5_counterexample :
    bMismatch.spec.output.toRef = some { name := "spec/other:ref" } ∧
    pushedTags (S2IBuilder.Build okOracleE bMismatch).state.events = ["reg/app:latest"] ∧
    ("reg/app:latest" : String) ≠ "spec/other:ref" := by decide

/-- C5 (amended): with no output reference (nil `Output.To` or empty name)
the push tag equals the request's own name and no tag or push call occurs
in the whole run; with an output reference, the push tag equals the
caller-resolved `Status.OutputDockerImageReference` carried on the build
(not the spec reference itself), and on a successful run exactly one push
occurs, with that tag. -/
theorem c5_push_tag_derivation :
    (∀ (o : Oracle) (b : Build) (strat : SourceStrategy),
      b.spec.sourceStrategy = some strat →
      (b.spec.output.toRef = none ∨ (b.spec.output.toRef.getD default).name = "") →
      noPushCall (S2IBuilder.Build o b).state.events = true ∧
      (S2IBuilder.Build o b).state.pushTag = b.name ∧
      (S2IBuilder.Build o b).state.build.status.outputDockerImageReference = b.name) ∧
    (∀ (o : Oracle) (b : Build) (strat : SourceStrategy) (pc : Option ProxyConfig)
      (r : ObjectRef) (ar : AssemblyResult) (d : String),
      b.spec.output.toRef = some r → ¬(r.name = "") →
      b.spec.sourceStrategy = some strat → o.readSourceInfoRes = .ok () →
      scriptProxyConfig o.parseProxyURL b = .ok pc → strat.forcePull = false →
      o.inspectImage strat.fromName = .ok (some emptyImage) →
      strat.incremental = none → o.allowedUIDs = "" →
      (∀ c, o.validateConfig c = []) → (∀ c, o.factory c = .ok ()) →
      (∀ c, o.assemblyBuild c = (some ar, none)) →
      o.dockerfileExists = false → o.engineBuild1Res = .ok () →
      stringContains o.buildTag "-cw" = false → o.tagImageRes = .ok () →
      o.pushRes = .ok d → ¬(d = "") →
      pushedTags (S2IBuilder.Build o b).state.events
        = [b.status.outputDockerImageReference] ∧
      (S2IBuilder.Build o b).state.pushTag = b.status.outputDockerImageReference) := by
  constructor
  · intro o b strat hs hnone
    have hcheck : checkStrategy (initSt b) = .cont (initSt b) := by
      unfold checkStrategy
      rw [show (initSt b).build.spec.sourceStrategy = some strat from hs]
    have hbody : buildBody o (initSt b) =
        fromReadSourceInfo o (setPushTag (setupOutput (initSt b))) := by
      unfold buildBody
      rw [hcheck]
      rfl
    have hpush1 : (setPushTag (setupOutput (initSt b))).push = false := by
      simp [setupOutput, hnone]
    have hptag : (setPushTag (setupOutput (initSt b))).pushTag = b.name := by
      simp [setupOutput, setPushTag, hnone]
    have href : (setPushTag (setupOutput (initSt b))).build.status.outputDockerImageReference
        = b.name := by
      simp [setupOutput, setPushTag, hnone]
    have hev : (setPushTag (setupOutput (initSt b))).events = [] := by
      simp [setupOutput, setPushTag, hnone]
    obtain ⟨hstg, horef, hspec2, hpushp, hptagp, l, hevents, hnop⟩ :=
      fromReadSourceInfo_inv o (setPushTag (setupOutput (initSt b)))
    have hfin : (S2IBuilder.Build o b).state
        = runDeferred (buildBody o (initSt b)).state := by
      show (applyDeferred (buildBody o (initSt b))).state = _
      exact applyDeferred_state _
    refine ⟨?_, ?_, ?_⟩
    · rw [hfin, runDeferred_events]
      rw [noPushCall_append]
      have hbodyev : (buildBody o (initSt b)).state.events = l := by
        rw [hbody, hevents, hev]
        simp
      rw [hbodyev]
      rw [hnop hpush1]
      rfl
    · rw [hfin, runDeferred_pushTag, hbody, hptagp, hptag]
    · rw [hfin, runDeferred_outputRef, hbody, horef, href]
  · intro o b strat pc r ar d hout hr hs hsrc hproxy hfp hinspect hinc hau hval hfac hasm
      hdf heng hcw htag hpush hd
    constructor
    · simp [hout, hr, hs, hsrc, hproxy, hfp, hinspect, hinc, hau, hval, hfac, hasm, hdf,
        heng, hcw, htag, hpush, hd, getAssembleUser_emptyImage, emptyImage_labels,
        mapGetD, mapGet]
    · simp [hout, hr, hs, hsrc, hproxy, hfp, hinspect, hinc, hau, hval, hfac, hasm, hdf,
        heng, hcw, htag, hpush, hd, getAssembleUser_emptyImage, emptyImage_labels,
        mapGetD, mapGet]

/-- Witness for C5: the no-output build pushes nothing and keeps its own
name as the tag; `baseBuild` pushes exactly once with the caller-resolved
reference. -/
theorem c5_push_tag_derivation_witness :
    (noPushCall (S2IBuilder.Build okOracleE bNoOutput).state.events = true ∧
      (S2IBuilder.Build okOracleE bNoOutput).state.pushTag = bNoOutput.name ∧
      (S2IBuilder.Build okOracleE bNoOutput).state.build.status.outputDockerImageReference
        = bNoOutput.name) ∧
    (pushedTags (S2IBuilder.Build okOracleE baseBuild).state.events
        = [baseBuild.status.outputDockerImageReference] ∧
      (S2IBuilder.Build okOracleE baseBuild).state.pushTag
        = baseBuild.status.outputDockerImageReference) :=
  ⟨c5_push_tag_derivation.1 okOracleE bNoOutput
      { forcePull := false, incremental := none, scripts := ""
        fromName := "builder:latest", env := [] }
      rfl (by decide),
   c5_push_tag_derivation.2 okOracleE baseBuild
      { forcePull := false, incremental := none, scripts := ""
        fromName := "builder:latest", env := [] } none
      { name := "reg/app:latest" }
      { stages := [], failureReason := "", failureMessage := "" } "sha256:abc"
      rfl (by decide) rfl rfl rfl rfl rfl rfl rfl (fun _ => rfl) (fun _ => rfl)
      (fun _ => rfl) rfl rfl (by decide) rfl rfl (by decide)⟩

/- ### C6: attestation-registration payload -/

/-- C6 counterexample: the payload name is computed with
`strings.ReplaceAll(pushTag, ":latest", "")`, which removes a *non-trailing*
`":latest"` occurrence too: pushing `reg:latest/app` registers the name
`reg/app`, whereas stripping only a trailing `":latest"` suffix would leave
`reg:latest/app` unchanged. -/
theorem c6_counterexample :
    (registeredPayloads (S2IBuilder.Build oCw bLatestMid).state.events).map RegPayload.name
      = ["reg/app"] ∧
    stripTrailingLatest "reg:latest/app" = "reg:latest/app" ∧
    ("reg/app" : String) ≠ "reg:latest/app" := by decide

/-- C6 (amended): for every run that reaches the attestation registration,
the payload's `sha` field equals the returned content digest and its
`name` field equals the push tag with **every** occurrence of `":latest"`
removed (Go `strings.ReplaceAll`), not only a trailing one. -/
theorem c6_attestation_payload (o : Oracle) (b : Build) (strat : SourceStrategy)
    (pc : Option ProxyConfig) (r : ObjectRef) (ar : AssemblyResult)
    (d env wd cwout : String)
    (hout : b.spec.output.toRef = some r) (hr : ¬(r.name = ""))
    (hs : b.spec.sourceStrategy = some strat) (hsrc : o.readSourceInfoRes = .ok ())
    (hproxy : scriptProxyConfig o.parseProxyURL b = .ok pc)
    (hfp : strat.forcePull = false)
    (hinspect : o.inspectImage strat.fromName = .ok (some emptyImage))
    (hinc : strat.incremental = none) (hau : o.allowedUIDs = "")
    (hval : ∀ c, o.validateConfig c = []) (hfac : ∀ c, o.factory c = .ok ())
    (hasm : ∀ c, o.assemblyBuild c = (some ar, none))
    (hdf : o.dockerfileExists = false) (heng : o.engineBuild1Res = .ok ())
    (hcw : stringContains o.buildTag "-cw" = true)
    (hext : o.extractEnvRes = .ok env) (hwd : o.inspectWorkdirRes = .ok wd)
    (hcb : o.cwBuildRes = .ok cwout) (heng2 : o.engineBuild2Res = .ok ())
    (hu : ¬(o.uuidString = ""))
    (htag : o.tagImageRes = .ok ()) (hpush : o.pushRes = .ok d) (hd : ¬(d = ""))
    (hhttp : o.httpDoRes = .ok ()) :
    (registeredPayloads (S2IBuilder.Build o b).state.events).map RegPayload.sha = [d] ∧
    (registeredPayloads (S2IBuilder.Build o b).state.events).map RegPayload.name
      = [replaceAll b.status.outputDockerImageReference ":latest" ""] := by
  constructor
  · simp [hout, hr, hs, hsrc, hproxy, hfp, hinspect, hinc, hau, hval, hfac, hasm, hdf,
      heng, hcw, hext, hwd, hcb, heng2, hu, htag, hpush, hd, hhttp,
      getAssembleUser_emptyImage, emptyImage_labels, mapGetD, mapGet]
  · simp [hout, hr, hs, hsrc, hproxy, hfp, hinspect, hinc, hau, hval, hfac, hasm, hdf,
      heng, hcw, hext, hwd, hcb, heng2, hu, htag, hpush, hd, hhttp,
      getAssembleUser_emptyImage, emptyImage_labels, mapGetD, mapGet]

/-- Witness for C6: the concrete `-cw` run against `bLatestMid` registers
`sha256:abc` under the fully-`":latest"`-stripped name. -/
theorem c6_attestation_payload_witness :
    (registeredPayloads (S2IBuilder.Build oCw bLatestMid).state.events).map RegPayload.sha
      = ["sha256:abc"] ∧
    (registeredPayloads (S2IBuilder.Build oCw bLatestMid).state.events).map RegPayload.name
      = [replaceAll bLatestMid.status.outputDockerImageReference ":latest" ""] :=
  c6_attestation_payload oCw bLatestMid
    { forcePull := false, incremental := none, scripts := ""
      fromName := "builder:latest", env := [] } none
    { name := "reg:latest/app" }
    { stages := [], failureReason := "", failureMessage := "" }
    "sha256:abc" "FOO=bar" "\x27/app\x27" "done"
    rfl (by decide) rfl rfl rfl rfl rfl rfl rfl (fun _ => rfl) (fun _ => rfl)
    (fun _ => rfl) rfl rfl (by decide) rfl rfl rfl rfl (by decide) rfl rfl
    (by decide) rfl

/- ### C3: attestation-registration failure handling (code bug) -/

/-- C3 (code bug): on a transport failure of the registration POST,
`client.Do` returns a nil response with an error; after the error is
logged, the deferred `resp.Body.Close()` dereferences the nil response and
the run panics — the digest is never recorded into BuildStatus and `Build`
does not return success, contradicting the claim that a registration
failure is logged only and not fatal. -/
theorem c3_registration_transport_failure_panics :
    (S2IBuilder.Build oCwRegFail baseBuild).outcome
      = some (.panicked "nil pointer dereference: resp.Body") ∧
    (S2IBuilder.Build oCwRegFail baseBuild).state.build.status.outputTo = none ∧
    (S2IBuilder.Build oCwRegFail baseBuild).state.events.filterMap
      (fun e => match e with
        | Event.logRegistrationError e2 => some e2
        | _ => none)
      = ["connection refused"] := by decide
